import Mathlib

/-!
Verification development for the elliptic-function and elliptic-integral core
of the repository (`numerics/elliptic_integrals.cpp` and
`numerics/elliptic_functions.cpp`).

Modelling conventions.
* IEEE-754 doubles are modelled as real numbers and floating-point operations
  as exact real operations.
* Division is Lean's total division on `ℝ` (`x / 0 = 0`); places where the
  source could divide by zero are noted where they matter.
* A quiet-NaN return of the source is `.error .nan`; exceeding an iteration
  or transformation-level bound (a `DCHECK` failure / unbounded loop in the
  source) is `.error .outOfFuel`.
* Loops without a structural bound are given explicit fuel; loops with a
  source-level bound (`max_transformations = 10`, `do n=0,20`) use that bound
  as the fuel.
* The source's `PolynomialInMonomialBasis` evaluators (Horner and Estrin)
  coincide in exact real arithmetic; polynomials are written in Horner form.
-/

namespace Principia

/-- Failure modes of the numerical routines: a quiet-NaN return, or exceeding
an iteration/level budget. -/
inductive Err
  | nan
  | outOfFuel
deriving DecidableEq

/-- `std::atanh`, modelled by the real inverse hyperbolic tangent
`artanh x = log ((1 + x) / (1 - x)) / 2`. -/
noncomputable def artanh (x : ℝ) : ℝ := Real.log ((1 + x) / (1 - x)) / 2

/-- One execution of the body of the `for (;;)` loop implementing Bartky's
algorithm in `BulirschCel`.  The source loop has no iteration bound; the
explicit `fuel` counts how many body executions are still allowed, and running
out is `.error .outOfFuel`.  The state is `a b p` together with the triple
`(kc, e, m)`; the convergence test `|g - kc| <= g * ca` (with `g` the previous
`m` and `ca = 1e-7`) ends the loop with the value
`(π/2)(a·m + b)/(m(m + p))`. -/
noncomputable def celLoop : ℕ → ℝ → ℝ → ℝ → ℝ × ℝ × ℝ → Except Err ℝ
  | 0, _, _, _, _ => .error .outOfFuel
  | fuel + 1, a, b, p, (kc, e, m) =>
    let f := a
    let a' := b / p + a
    let g := e / p
    let b' := (f * g + b) + (f * g + b)
    let p' := g + p
    let m' := kc + m
    if |m - kc| ≤ m * 1.0e-7 then
      .ok ((Real.pi / 2) * (a' * m' + b') / (m' * (m' + p')))
    else
      celLoop fuel a' b' p'
        (Real.sqrt e + Real.sqrt e, (Real.sqrt e + Real.sqrt e) * m', m')

/-- The body of `BulirschCel` after the `kc = 0` special cases: `kc` is
replaced by `|kc|`, `e = kc`, `m = 1`, then `p`, `a`, `b` are initialised with
a case split on the sign of `nc`, and Bartky's algorithm runs (here with an
iteration budget of 100). -/
noncomputable def celBody (kc₀ nc a₀ b₀ : ℝ) : Except Err ℝ :=
  let kc := |kc₀|
  let e := kc
  if nc > 0 then
    let p := Real.sqrt nc
    celLoop 100 a₀ (b₀ / p) p (kc, e, 1.0)
  else
    let f := kc * kc
    let q := (b₀ - a₀ * nc) * (1.0 - f)
    let g := 1.0 - nc
    let f' := f - nc
    let p := Real.sqrt (f' / g)
    let a := (a₀ - b₀) / g
    let b := a * p - q / (g * g * p)
    celLoop 100 a b p (kc, e, 1.0)

/-- `BulirschCel` from `numerics/elliptic_integrals.cpp`: Bulirsch's general
complete elliptic integral `cel(kc, nc, a, b)`.  `kc = 0` with `b ≠ 0` is
undefined and the source returns a quiet NaN (after logging); `kc = 0` with
`b = 0` substitutes `kc_nearly_0 = 1e-14`. -/
noncomputable def BulirschCel (kc nc a b : ℝ) : Except Err ℝ :=
  if kc = 0 then
    if b = 0 then celBody 1.0e-14 nc a b
    else .error .nan
  else celBody kc nc a b

/-- The `(kc, e, m)` components of one Bartky iteration of `celLoop`:
`kc = 2√e`, `m = kc + m`, `e = (2√e)·(kc + m)`.  The `a`, `b`, `p` components
do not feed back into these, so the termination behaviour of the loop is a
function of this triple alone. -/
noncomputable def kemStep (s : ℝ × ℝ × ℝ) : ℝ × ℝ × ℝ :=
  (Real.sqrt s.2.1 + Real.sqrt s.2.1,
   (Real.sqrt s.2.1 + Real.sqrt s.2.1) * (s.1 + s.2.2),
   s.1 + s.2.2)

/-- The convergence test of `celLoop` on the `(kc, e, m)` triple:
`|m - kc| ≤ m * ca` with `ca = 1e-7`. -/
def celPass (s : ℝ × ℝ × ℝ) : Prop := |s.2.2 - s.1| ≤ s.2.2 * 1.0e-7

/-- The ratio `kc / m` of a `(kc, e, m)` triple; Bartky's iteration drives it
to `1`. -/
noncomputable def kemRatio (s : ℝ × ℝ × ℝ) : ℝ := s.1 / s.2.2

/-- The loop invariant of the `(kc, e, m)` triple: positivity, `kc ≤ m`, and
`e = kc·m`. -/
def kemInv (s : ℝ × ℝ × ℝ) : Prop :=
  0 < s.1 ∧ 0 < s.2.2 ∧ s.1 ≤ s.2.2 ∧ s.2.1 = s.1 * s.2.2

/-- The degree-`k` Maclaurin polynomial of Fukushima's T function: the
truncation of `Σ zⁱ/(2i + 1)` (the `FukushimaTMaclaurin<k>` generator of the
source), in Horner form. -/
noncomputable def fukushimaTMaclaurin (k : ℕ) (z : ℝ) : ℝ :=
  (List.range (k + 1)).foldr (fun i acc => 1 / (2 * (i : ℝ) + 1) + z * acc) 0

/-- `FukushimaT` from `numerics/elliptic_integrals.cpp`: `T(t, h)`, a single
dispatch on `|z|` with `z = -h·t²`, falling back to the `atan`/`atanh` closed
forms.  Note that the `z < 0` test sits between the 10th and 11th threshold
tests, exactly as in the source. -/
noncomputable def FukushimaT (t h : ℝ) : ℝ :=
  let z := -h * t * t
  let abs_z := |z|
  if abs_z < 3.3306691e-16 then t
  else if abs_z < 2.3560805e-08 then t * fukushimaTMaclaurin 1 z
  else if abs_z < 9.1939631e-06 then t * fukushimaTMaclaurin 2 z
  else if abs_z < 1.7779240e-04 then t * fukushimaTMaclaurin 3 z
  else if abs_z < 1.0407839e-03 then t * fukushimaTMaclaurin 4 z
  else if abs_z < 3.3616998e-03 then t * fukushimaTMaclaurin 5 z
  else if abs_z < 7.7408014e-03 then t * fukushimaTMaclaurin 6 z
  else if abs_z < 1.4437181e-02 then t * fukushimaTMaclaurin 7 z
  else if abs_z < 2.3407312e-02 then t * fukushimaTMaclaurin 8 z
  else if abs_z < 3.4416203e-02 then t * fukushimaTMaclaurin 9 z
  else if z < 0 then Real.arctan (Real.sqrt h * t) / Real.sqrt h
  else if abs_z < 4.7138547e-02 then t * fukushimaTMaclaurin 10 z
  else if abs_z < 6.1227405e-02 then t * fukushimaTMaclaurin 11 z
  else if abs_z < 7.6353468e-02 then t * fukushimaTMaclaurin 12 z
  else artanh (Real.sqrt (-h) * t) / Real.sqrt (-h)

/-- Tags for the branches of `FukushimaT`: which expression the function
returns. -/
inductive TBranch
  | maclaurin (k : ℕ)
  | arctanForm
  | artanhForm
deriving DecidableEq

/-- The branch of `FukushimaT` taken at `(t, h)`: read off the `if` chain of
the source (`maclaurin 0` is the `return t` branch). -/
noncomputable def FukushimaTBranch (t h : ℝ) : TBranch :=
  let z := -h * t * t
  let abs_z := |z|
  if abs_z < 3.3306691e-16 then .maclaurin 0
  else if abs_z < 2.3560805e-08 then .maclaurin 1
  else if abs_z < 9.1939631e-06 then .maclaurin 2
  else if abs_z < 1.7779240e-04 then .maclaurin 3
  else if abs_z < 1.0407839e-03 then .maclaurin 4
  else if abs_z < 3.3616998e-03 then .maclaurin 5
  else if abs_z < 7.7408014e-03 then .maclaurin 6
  else if abs_z < 1.4437181e-02 then .maclaurin 7
  else if abs_z < 2.3407312e-02 then .maclaurin 8
  else if abs_z < 3.4416203e-02 then .maclaurin 9
  else if z < 0 then .arctanForm
  else if abs_z < 4.7138547e-02 then .maclaurin 10
  else if abs_z < 6.1227405e-02 then .maclaurin 11
  else if abs_z < 7.6353468e-02 then .maclaurin 12
  else .artanhForm

/-- The degree-14 Maclaurin series for Jacobi's nome: `EllipticNomeQ<14>` of
the source, `mc` times the first 14 coefficients of `full_series` of
`EllipticNomeQMaclaurin`, in Horner form. -/
noncomputable def EllipticNomeQ14 (mc : ℝ) : ℝ :=
  mc * (1.0 / 16.0 + mc * (1.0 / 32.0 + mc * (21.0 / 1024.0 + mc * (31.0 / 2048.0 +
    mc * (6257.0 / 524288.0 + mc * (10293.0 / 1048576.0 + mc * (279025.0 / 33554432.0 +
    mc * (483127.0 / 67108864.0 + mc * (435506703.0 / 68719476736.0 +
    mc * (776957575.0 / 137438953472.0 + mc * (22417045555.0 / 4398046511104.0 +
    mc * (40784671953.0 / 8796093022208.0 + mc * (9569130097211.0 / 2251799813685248.0 +
    mc * (17652604545791.0 / 4503599627370496.0))))))))))))))

/-- The degree-16 Maclaurin series for Jacobi's nome: `EllipticNomeQ<16>` of
the source, `mc` times all 16 coefficients of `full_series`. -/
noncomputable def EllipticNomeQ16 (mc : ℝ) : ℝ :=
  mc * (1.0 / 16.0 + mc * (1.0 / 32.0 + mc * (21.0 / 1024.0 + mc * (31.0 / 2048.0 +
    mc * (6257.0 / 524288.0 + mc * (10293.0 / 1048576.0 + mc * (279025.0 / 33554432.0 +
    mc * (483127.0 / 67108864.0 + mc * (435506703.0 / 68719476736.0 +
    mc * (776957575.0 / 137438953472.0 + mc * (22417045555.0 / 4398046511104.0 +
    mc * (40784671953.0 / 8796093022208.0 + mc * (9569130097211.0 / 2251799813685248.0 +
    mc * (17652604545791.0 / 4503599627370496.0 + mc * (523910972020563.0 / 144115188075855872.0 +
    mc * (976501268709949.0 / 288230376151711744.0))))))))))))))))

/-- `EllipticK` from `numerics/elliptic_integrals.cpp`: the complete elliptic
integral of the first kind K as a function of the complementary parameter `mc`,
transcribed branch for branch (doubles are modelled as real numbers; the
polynomials are evaluated in exact real arithmetic, where the Horner and Estrin
schemes of the source coincide). -/
noncomputable def EllipticK (mc : ℝ) : ℝ :=
  let m := 1.0 - mc
  if |m| < 1.0e-16 then Real.pi / 2
  else if mc < 1.0e-99 then
    (1.3862943611198906 - 0.5 * Real.log 1.0e-99)
  else if mc < 1.11e-16 then
    (1.3862943611198906 - 0.5 * Real.log (mc))
  else if mc < 0.1 then
    let nome := EllipticNomeQ14 mc
    let mx := mc - 0.05
    let kkc :=
      (1.591003453790792180 + mx * (
       0.416000743991786912 + mx * (
       0.245791514264103415 + mx * (
       0.179481482914906162 + mx * (
       0.144556057087555150 + mx * (
       0.123200993312427711 + mx * (
       0.108938811574293531 + mx * (
       0.098853409871592910 + mx * (
       0.091439629201749751 + mx * (
       0.085842591595413900 + mx * (
       0.081541118718303215)))))))))))
    (-kkc * (1 / Real.pi) * Real.log (nome))
  else if m ≤ 0.1 then
    let mx := m - 0.05
    (1.591003453790792180 + mx * (
     0.416000743991786912 + mx * (
     0.245791514264103415 + mx * (
     0.179481482914906162 + mx * (
     0.144556057087555150 + mx * (
     0.123200993312427711 + mx * (
     0.108938811574293531 + mx * (
     0.098853409871592910 + mx * (
     0.091439629201749751 + mx * (
     0.085842591595413900 + mx * (
     0.081541118718303215)))))))))))
  else if m ≤ 0.2 then
    let mx := m - 0.15
    (1.635256732264579992 + mx * (
     0.471190626148732291 + mx * (
     0.309728410831499587 + mx * (
     0.252208311773135699 + mx * (
     0.226725623219684650 + mx * (
     0.215774446729585976 + mx * (
     0.213108771877348910 + mx * (
     0.216029124605188282 + mx * (
     0.223255831633057896 + mx * (
     0.234180501294209925 + mx * (
     0.248557682972264071 + mx * (
     0.266363809892617521 + mx * (
     0.287728452156114668)))))))))))))
  else if m ≤ 0.3 then
    let mx := m - 0.25
    (1.685750354812596043 + mx * (
     0.541731848613280329 + mx * (
     0.401524438390690257 + mx * (
     0.369642473420889090 + mx * (
     0.376060715354583645 + mx * (
     0.405235887085125919 + mx * (
     0.453294381753999079 + mx * (
     0.520518947651184205 + mx * (
     0.609426039204995055 + mx * (
     0.724263522282908870 + mx * (
     0.871013847709812357 + mx * (
     1.057652872753547036))))))))))))
  else if m ≤ 0.4 then
    let mx := m - 0.35
    (1.744350597225613243 + mx * (
     0.634864275371935304 + mx * (
     0.539842564164445538 + mx * (
     0.571892705193787391 + mx * (
     0.670295136265406100 + mx * (
     0.832586590010977199 + mx * (
     1.073857448247933265 + mx * (
     1.422091460675497751 + mx * (
     1.920387183402304829 + mx * (
     2.632552548331654201 + mx * (
     3.652109747319039160 + mx * (
     5.115867135558865806 + mx * (
     7.224080007363877411)))))))))))))
  else if m ≤ 0.5 then
    let mx := m - 0.45
    (1.813883936816982644 + mx * (
     0.763163245700557246 + mx * (
     0.761928605321595831 + mx * (
     0.951074653668427927 + mx * (
     1.315180671703161215 + mx * (
     1.928560693477410941 + mx * (
     2.937509342531378755 + mx * (
     4.594894405442878062 + mx * (
     7.330071221881720772 + mx * (
     11.87151259742530180 + mx * (
     19.45851374822937738 + mx * (
     32.20638657246426863 + mx * (
     53.73749198700554656 + mx * (
     90.27388602940998849))))))))))))))
  else if m ≤ 0.6 then
    let mx := m - 0.55
    (1.898924910271553526 + mx * (
     0.950521794618244435 + mx * (
     1.151077589959015808 + mx * (
     1.750239106986300540 + mx * (
     2.952676812636875180 + mx * (
     5.285800396121450889 + mx * (
     9.832485716659979747 + mx * (
     18.78714868327559562 + mx * (
     36.61468615273698145 + mx * (
     72.45292395127771801 + mx * (
     145.1079577347069102 + mx * (
     293.4786396308497026 + mx * (
     598.3851815055010179 + mx * (
     1228.420013075863451 + mx * (
     2536.529755382764488)))))))))))))))
  else if m ≤ 0.7 then
    let mx := m - 0.65
    (2.007598398424376302 + mx * (
     1.248457231212347337 + mx * (
     1.926234657076479729 + mx * (
     3.751289640087587680 + mx * (
     8.119944554932045802 + mx * (
     18.66572130873555361 + mx * (
     44.60392484291437063 + mx * (
     109.5092054309498377 + mx * (
     274.2779548232413480 + mx * (
     697.5598008606326163 + mx * (
     1795.716014500247129 + mx * (
     4668.381716790389910 + mx * (
     12235.76246813664335 + mx * (
     32290.17809718320818 + mx * (
     85713.07608195964685 + mx * (
     228672.1890493117096 + mx * (
     612757.2711915852774)))))))))))))))))
  else if m ≤ 0.8 then
    let mx := m - 0.75
    (2.156515647499643235 + mx * (
     1.791805641849463243 + mx * (
     3.826751287465713147 + mx * (
     10.38672468363797208 + mx * (
     31.40331405468070290 + mx * (
     100.9237039498695416 + mx * (
     337.3268282632272897 + mx * (
     1158.707930567827917 + mx * (
     4060.990742193632092 + mx * (
     14454.00184034344795 + mx * (
     52076.66107599404803 + mx * (
     189493.6591462156887 + mx * (
     695184.5762413896145 + mx * (
     2.567994048255284686e6 + mx * (
     9.541921966748386322e6 + mx * (
     3.563492744218076174e7 + mx * (
     1.336692984612040871e8 + mx * (
     5.033521866866284541e8 + mx * (
     1.901975729538660119e9 + mx * (
     7.208915015330103756e9))))))))))))))))))))
  else if m ≤ 0.85 then
    let mx := m - 0.825
    (2.318122621712510589 + mx * (
     2.616920150291232841 + mx * (
     7.897935075731355823 + mx * (
     30.50239715446672327 + mx * (
     131.4869365523528456 + mx * (
     602.9847637356491617 + mx * (
     2877.024617809972641 + mx * (
     14110.51991915180325 + mx * (
     70621.44088156540229 + mx * (
     358977.2665825309926 + mx * (
     1.847238263723971684e6 + mx * (
     9.600515416049214109e6 + mx * (
     5.030767708502366879e7 + mx * (
     2.654441886527127967e8 + mx * (
     1.408862325028702687e9 + mx * (
     7.515687935373774627e9))))))))))))))))
  else
    let mx := m - 0.875
    (2.473596173751343912 + mx * (
     3.727624244118099310 + mx * (
     15.60739303554930496 + mx * (
     84.12850842805887747 + mx * (
     506.9818197040613935 + mx * (
     3252.277058145123644 + mx * (
     21713.24241957434256 + mx * (
     149037.0451890932766 + mx * (
     1.043999331089990839e6 + mx * (
     7.427974817042038995e6 + mx * (
     5.350383967558661151e7 + mx * (
     3.892498869948708474e8 + mx * (
     2.855288351100810619e9 + mx * (
     2.109007703876684053e10 + mx * (
     1.566998339477902014e11 + mx * (
     1.170222242422439893e12 + mx * (
     8.777948323668937971e12 + mx * (
     6.610124275248495041e13 + mx * (
     4.994880537133887989e14 + mx * (
     3.785974339724029920e15))))))))))))))))))))

/-- The fresh-computation path of `elk` from
`numerics/elliptic_functions.cpp` (Fortran-style source): the complete elliptic
integral of the first kind.  The `mcold`/`elkold` cache branch of the source is
global mutable state; it is factored out into the stateful wrapper `elk_call`
below, which threads the cache explicitly.  `PIHALF` is π/2, `PIINV` is 1/π and
`TINY` is 1e-99. -/
noncomputable def elk0 (mc : ℝ) : ℝ :=
  let D1 : ℝ := 1.0/16.0
  let D2 : ℝ := 1.0/32.0
  let D3 : ℝ := 21.0/1024.0
  let D4 : ℝ := 31.0/2048.0
  let D5 : ℝ := 6257.0/524288.0
  let D6 : ℝ := 10293.0/1048576.0
  let D7 : ℝ := 279025.0/33554432.0
  let D8 : ℝ := 483127.0/67108864.0
  let D9 : ℝ := 435506703.0/68719476736.0
  let D10 : ℝ := 776957575.0/137438953472.0
  let D11 : ℝ := 22417045555.0/4398046511104.0
  let D12 : ℝ := 40784671953.0/8796093022208.0
  let D13 : ℝ := 9569130097211.0/2251799813685248.0
  let D14 : ℝ := 17652604545791.0/4503599627370496.0
  let m := 1.0 - mc
  if |m| < 1.0e-16 then Real.pi / 2
  else if mc < 1.0e-99 then 1.3862943611198906 - 0.5 * Real.log 1.0e-99
  else if mc < 1.11e-16 then 1.3862943611198906 - 0.5 * Real.log mc
  else if mc < 0.1 then
    let nome :=
      (mc*(D1 + mc * (D2 + mc * (D3 + mc * (D4 + mc * (D5 + mc * (D6
        + mc * (D7 + mc * (D8 + mc * (D9 + mc * (D10 + mc * (D11 + mc * (D12
        + mc * (D13 + mc * D14))))))))))))))
    let mx := mc - 0.05
    let kkc :=
      (1.591003453790792180 + mx * (
       0.416000743991786912 + mx * (
       0.245791514264103415 + mx * (
       0.179481482914906162 + mx * (
       0.144556057087555150 + mx * (
       0.123200993312427711 + mx * (
       0.108938811574293531 + mx * (
       0.098853409871592910 + mx * (
       0.091439629201749751 + mx * (
       0.085842591595413900 + mx * (
       0.081541118718303215)))))))))))
    (-kkc * (1 / Real.pi) * Real.log nome)
  else if m ≤ 0.1 then
    let mx := m - 0.05
    (1.591003453790792180 + mx * (
     0.416000743991786912 + mx * (
     0.245791514264103415 + mx * (
     0.179481482914906162 + mx * (
     0.144556057087555150 + mx * (
     0.123200993312427711 + mx * (
     0.108938811574293531 + mx * (
     0.098853409871592910 + mx * (
     0.091439629201749751 + mx * (
     0.085842591595413900 + mx * (
     0.081541118718303215)))))))))))
  else if m ≤ 0.2 then
    let mx := m - 0.15
    (1.635256732264579992 + mx * (
     0.471190626148732291 + mx * (
     0.309728410831499587 + mx * (
     0.252208311773135699 + mx * (
     0.226725623219684650 + mx * (
     0.215774446729585976 + mx * (
     0.213108771877348910 + mx * (
     0.216029124605188282 + mx * (
     0.223255831633057896 + mx * (
     0.234180501294209925 + mx * (
     0.248557682972264071 + mx * (
     0.266363809892617521 + mx * (
     0.287728452156114668)))))))))))))
  else if m ≤ 0.3 then
    let mx := m - 0.25
    (1.685750354812596043 + mx * (
     0.541731848613280329 + mx * (
     0.401524438390690257 + mx * (
     0.369642473420889090 + mx * (
     0.376060715354583645 + mx * (
     0.405235887085125919 + mx * (
     0.453294381753999079 + mx * (
     0.520518947651184205 + mx * (
     0.609426039204995055 + mx * (
     0.724263522282908870 + mx * (
     0.871013847709812357 + mx * (
     1.057652872753547036))))))))))))
  else if m ≤ 0.4 then
    let mx := m - 0.35
    (1.744350597225613243 + mx * (
     0.634864275371935304 + mx * (
     0.539842564164445538 + mx * (
     0.571892705193787391 + mx * (
     0.670295136265406100 + mx * (
     0.832586590010977199 + mx * (
     1.073857448247933265 + mx * (
     1.422091460675497751 + mx * (
     1.920387183402304829 + mx * (
     2.632552548331654201 + mx * (
     3.652109747319039160 + mx * (
     5.115867135558865806 + mx * (
     7.224080007363877411)))))))))))))
  else if m ≤ 0.5 then
    let mx := m - 0.45
    (1.813883936816982644 + mx * (
     0.763163245700557246 + mx * (
     0.761928605321595831 + mx * (
     0.951074653668427927 + mx * (
     1.315180671703161215 + mx * (
     1.928560693477410941 + mx * (
     2.937509342531378755 + mx * (
     4.594894405442878062 + mx * (
     7.330071221881720772 + mx * (
     11.87151259742530180 + mx * (
     19.45851374822937738 + mx * (
     32.20638657246426863 + mx * (
     53.73749198700554656 + mx * (
     90.27388602940998849))))))))))))))
  else if m ≤ 0.6 then
    let mx := m - 0.55
    (1.898924910271553526 + mx * (
     0.950521794618244435 + mx * (
     1.151077589959015808 + mx * (
     1.750239106986300540 + mx * (
     2.952676812636875180 + mx * (
     5.285800396121450889 + mx * (
     9.832485716659979747 + mx * (
     18.78714868327559562 + mx * (
     36.61468615273698145 + mx * (
     72.45292395127771801 + mx * (
     145.1079577347069102 + mx * (
     293.4786396308497026 + mx * (
     598.3851815055010179 + mx * (
     1228.420013075863451 + mx * (
     2536.529755382764488)))))))))))))))
  else if m ≤ 0.7 then
    let mx := m - 0.65
    (2.007598398424376302 + mx * (
     1.248457231212347337 + mx * (
     1.926234657076479729 + mx * (
     3.751289640087587680 + mx * (
     8.119944554932045802 + mx * (
     18.66572130873555361 + mx * (
     44.60392484291437063 + mx * (
     109.5092054309498377 + mx * (
     274.2779548232413480 + mx * (
     697.5598008606326163 + mx * (
     1795.716014500247129 + mx * (
     4668.381716790389910 + mx * (
     12235.76246813664335 + mx * (
     32290.17809718320818 + mx * (
     85713.07608195964685 + mx * (
     228672.1890493117096 + mx * (
     612757.2711915852774)))))))))))))))))
  else if m ≤ 0.8 then
    let mx := m - 0.75
    (2.156515647499643235 + mx * (
     1.791805641849463243 + mx * (
     3.826751287465713147 + mx * (
     10.38672468363797208 + mx * (
     31.40331405468070290 + mx * (
     100.9237039498695416 + mx * (
     337.3268282632272897 + mx * (
     1158.707930567827917 + mx * (
     4060.990742193632092 + mx * (
     14454.00184034344795 + mx * (
     52076.66107599404803 + mx * (
     189493.6591462156887 + mx * (
     695184.5762413896145 + mx * (
     2.567994048255284686e6 + mx * (
     9.541921966748386322e6 + mx * (
     3.563492744218076174e7 + mx * (
     1.336692984612040871e8 + mx * (
     5.033521866866284541e8 + mx * (
     1.901975729538660119e9 + mx * (
     7.208915015330103756e9))))))))))))))))))))
  else if m ≤ 0.85 then
    let mx := m - 0.825
    (2.318122621712510589 + mx * (
     2.616920150291232841 + mx * (
     7.897935075731355823 + mx * (
     30.50239715446672327 + mx * (
     131.4869365523528456 + mx * (
     602.9847637356491617 + mx * (
     2877.024617809972641 + mx * (
     14110.51991915180325 + mx * (
     70621.44088156540229 + mx * (
     358977.2665825309926 + mx * (
     1.847238263723971684e6 + mx * (
     9.600515416049214109e6 + mx * (
     5.030767708502366879e7 + mx * (
     2.654441886527127967e8 + mx * (
     1.408862325028702687e9 + mx * (
     7.515687935373774627e9))))))))))))))))
  else
    let mx := m - 0.875
    (2.473596173751343912 + mx * (
     3.727624244118099310 + mx * (
     15.60739303554930496 + mx * (
     84.12850842805887747 + mx * (
     506.9818197040613935 + mx * (
     3252.277058145123644 + mx * (
     21713.24241957434256 + mx * (
     149037.0451890932766 + mx * (
     1.043999331089990839e6 + mx * (
     7.427974817042038995e6 + mx * (
     5.350383967558661151e7 + mx * (
     3.892498869948708474e8 + mx * (
     2.855288351100810619e9 + mx * (
     2.109007703876684053e10 + mx * (
     1.566998339477902014e11 + mx * (
     1.170222242422439893e12 + mx * (
     8.777948323668937971e12 + mx * (
     6.610124275248495041e13 + mx * (
     4.994880537133887989e14 + mx * (
     3.785974339724029920e15))))))))))))))))))))

/-- `FukushimaEllipticBD` from `numerics/elliptic_integrals.cpp`: the pair
`(elb, eld)` of Fukushima's complete elliptic integrals of the second kind,
transcribed branch for branch. -/
noncomputable def FukushimaEllipticBD (mc : ℝ) : ℝ × ℝ :=
  let K1 : ℝ := 1.0 / 4.0
  let K2 : ℝ := 9.0 / 64.0
  let K3 : ℝ := 25.0 / 256.0
  let K4 : ℝ := 1225.0 / 16384.0
  let K5 : ℝ := 3969.0 / 65536.0
  let K6 : ℝ := 53361.0 / 1048576.0
  let K7 : ℝ := 184041.0 / 4194304.0
  let B1 : ℝ := 1.0 / 2.0
  let B2 : ℝ := 1.0 / 16.0
  let B3 : ℝ := 3.0 / 128.0
  let B4 : ℝ := 25.0 / 2048.0
  let B5 : ℝ := 245.0 / 32768.0
  let B6 : ℝ := 1323.0 / 262144.0
  let B7 : ℝ := 7623.0 / 2097152.0
  let B8 : ℝ := 184041.0 / 67108864.0
  let D1 : ℝ := 1.0 / 2.0
  let D2 : ℝ := 3.0 / 16.0
  let D3 : ℝ := 15.0 / 128.0
  let D4 : ℝ := 175.0 / 2048.0
  let D5 : ℝ := 2205.0 / 32768.0
  let D6 : ℝ := 14553.0 / 262144.0
  let D7 : ℝ := 99099.0 / 2097152.0
  let D8 : ℝ := 2760615.0 / 67108864.0
  let m := 1.0 - mc
  if m < 1.11e-16 then (Real.pi / 4, Real.pi / 4)
  else if mc < 1.11e-16 then
    (1.0, 0.3862943611198906188344642429164 - 0.5 * Real.log (mc))
  else if mc < 0.1 then
    let nome := EllipticNomeQ16 mc
    let dk_dd :=
      if mc < 0.01 then
        ((mc * (K1 +
          mc * (K2 + mc * (K3 + mc * (K4 + mc * (K5 + mc * (K6 + mc * K7))))))),
         (mc * (D1 +
          mc * (D2 + mc * (D3 + mc * (D4 + mc * (D5 + mc * (D6 + mc * D7))))))))
      else
        let mx := mc - 0.05
        ((0.01286425658832983978282698630501405107893
          + mx * (0.26483429894479586582278131697637750604652
          + mx * (0.15647573786069663900214275050014481397750
          + mx * (0.11426146079748350067910196981167739749361
          + mx * (0.09202724415743445309239690377424239940545
          + mx * (0.07843218831801764082998285878311322932444
          + mx * (0.06935260142642158347117402021639363379689
          + mx * (0.06293203529021269706312943517695310879457
          + mx * (0.05821227592779397036582491084172892108196
          + mx * (0.05464909112091564816652510649708377642504
          + mx * (0.05191068843704411873477650167894906357568
          + mx * (0.04978344771840508342564702588639140680363
          + mx * (0.04812375496807025605361215168677991360500))))))))))))),
         (0.02548395442966088473597712420249483947953
          + mx * (0.51967384324140471318255255900132590084179
          + mx * (0.20644951110163173131719312525729037023377
          + mx * (0.13610952125712137420240739057403788152260
          + mx * (0.10458014040566978574883406877392984277718
          + mx * (0.08674612915759188982465635633597382093113
          + mx * (0.07536380269617058326770965489534014190391
          + mx * (0.06754544594618781950496091910264174396541
          + mx * (0.06190939688096410201497509102047998554900
          + mx * (0.05771071515451786553160533778648705873199
          + mx * (0.05451217098672207169493767625617704078257
          + mx * (0.05204028407582600387265992107877094920787
          + mx * (0.05011532514520838441892567405879742720039))))))))))))))
    let dkkc := dk_dd.1
    let dddc := dk_dd.2
    let kkc := 1.0 + dkkc
    let logq2 := -0.5 * Real.log nome
    let elk := kkc * logq2
    let dele := -dkkc / kkc + logq2 * dddc
    let elk1 := elk - 1.0
    let delb := (dele - mc * elk1) / m
    (1.0 + delb, elk1 - delb)
  else if m ≤ 0.01 then
    (((Real.pi / 2) * (B1 + m * (B2 + m * (B3 + m * (B4 + m * (B5 + m * (B6 + m *
      (B7 + m * B8)))))))),
     ((Real.pi / 2) * (D1 + m * (D2 + m * (D3 + m * (D4 + m * (D5 + m * (D6 + m *
      (D7 + m * D8)))))))))
  else if m ≤ 0.1 then
    let mx := 0.95 - mc
    ((0.790401413584395132310045630540381158921005
      + mx * (0.102006266220019154892513446364386528537788
      + mx * (0.039878395558551460860377468871167215878458
      + mx * (0.021737136375982167333478696987134316809322
      + mx * (0.013960979767622057852185340153691548520857
      + mx * (0.009892518822669142478846083436285145400444
      + mx * (0.007484612400663335676130416571517444936951
      + mx * (0.005934625664295473695080715589652011420808
      + mx * (0.004874249053581664096949448689997843978535
      + mx * (0.004114606930310886136960940893002069423559
      + mx * (0.003550452989196176932747744728766021440856
      + mx * (0.003119229959988474753291950759202798352266)))))))))))),
     (0.800602040206397047799296975176819811774784
      + mx * (0.313994477771767756849615832867393028789057
      + mx * (0.205913118705551954501930953451976374435088
      + mx * (0.157744346538923994475225014971416837073598
      + mx * (0.130595077319933091909091103101366509387938
      + mx * (0.113308474489758568672985167742047066367053
      + mx * (0.101454199173630195376251916342483192174927
      + mx * (0.0929187842072974367037702927967784464949434
      + mx * (0.0865653801481680871714054745336652101162894
      + mx * (0.0817279846651030135350056216958053404884715
      + mx * (0.0779906657291070378163237851392095284454654
      + mx * (0.075080426851268007156477347905308063808848)))))))))))))
  else if m ≤ 0.2 then
    let mx := 0.85 - mc
    ((0.80102406445284489393880821604009991524037
      + mx * (0.11069534452963401497502459778015097487115
      + mx * (0.047348746716993717753569559936346358937777
      + mx * (0.028484367255041422845322166419447281776162
      + mx * (0.020277811444003597057721308432225505126013
      + mx * (0.015965005853099119442287313909177068173564
      + mx * (0.013441320273553634762716845175446390822633
      + mx * (0.011871565736951439501853534319081030547931
      + mx * (0.010868363672485520630005005782151743785248
      + mx * (0.010231587232710564565903812652581252337697
      + mx * (0.009849585546666211201566987057592610884309
      + mx * (0.009656606347153765129943681090056980586986)))))))))))),
     (0.834232667811735098431315595374145207701720
      + mx * (0.360495281619098275577215529302260739976126
      + mx * (0.262379664114505869328637749459234348287432
      + mx * (0.223723944518094276386520735054801578584350
      + mx * (0.206447811775681052682922746753795148394463
      + mx * (0.199809440876486856438050774316751253389944
      + mx * (0.199667451603795274869211409350873244844882
      + mx * (0.204157558868236842039815028663379643303565
      + mx * (0.212387467960572375038025392458549025660994
      + mx * (0.223948914061499360356873401571821627069173
      + mx * (0.238708097425597860161720875806632864507536
      + mx * (0.256707203545463755643710021815937785120030)))))))))))))
  else if m ≤ 0.3 then
    let mx := 0.75 - mc
    ((0.81259777291992049322557009456643357559904
      + mx * (0.12110961794551011284012693733241967660542
      + mx * (0.057293376831239877456538980381277010644332
      + mx * (0.038509451602167328057004166642521093142114
      + mx * (0.030783430301775232744816612250699163538318
      + mx * (0.027290564934732526869467118496664914274956
      + mx * (0.025916369289445198731886546557337255438083
      + mx * (0.025847203343361799141092472018796130324244
      + mx * (0.026740923539348854616932735567182946385269
      + mx * (0.028464314554825704963640157657034405579849
      + mx * (0.030995446237278954096189768338119395563447
      + mx * (0.034384369179940975864103666824736551261799
      + mx * (0.038738002072493935952384233588242422046537))))))))))))),
     (0.873152581892675549645633563232643413901757
      + mx * (0.420622230667770215976919792378536040460605
      + mx * (0.344231061559450379368201151870166692934830
      + mx * (0.331133021818721761888662390999045979071436
      + mx * (0.345277285052808411877017306497954757532251
      + mx * (0.377945322150393391759797943135325823338761
      + mx * (0.427378012464553880508348757311170776829930
      + mx * (0.494671744307822405584118022550673740404732
      + mx * (0.582685115665646200824237214098764913658889
      + mx * (0.695799207728083164790111837174250683834359
      + mx * (0.840018401472533403272555302636558338772258
      + mx * (1.023268503573606060588689738498395211300483
      + mx * (1.255859085136282496149035687741403985044122))))))))))))))
  else if m ≤ 0.4 then
    let mx := 0.65 - mc
    ((0.8253235579835158949845697805395190063745
      + mx * (0.1338621160836877898575391383950840569989
      + mx * (0.0710112935979886745743770664203746758134
      + mx * (0.0541784774173873762208472152701393154906
      + mx * (0.0494517449481029932714386586401273353617
      + mx * (0.0502221962241074764652127892365024315554
      + mx * (0.0547429131718303528104722303305931350375
      + mx * (0.0627462579270016992000788492778894700075
      + mx * (0.0746698810434768864678760362745179321956
      + mx * (0.0914808451777334717996463421986810092918
      + mx * (0.1147050921109978235104185800057554574708
      + mx * (0.1465711325814398757043492181099197917984
      + mx * (0.1902571373338462844225085057953823854177))))))))))))),
     (0.9190270392420973478848471774160778462738
      + mx * (0.5010021592882475139767453081737767171354
      + mx * (0.4688312705664568629356644841691659415972
      + mx * (0.5177142277764000147059587510833317474467
      + mx * (0.6208433913173031070711926900889045286988
      + mx * (0.7823643937868697229213240489900179142670
      + mx * (1.0191145350761029126165253557593691585239
      + mx * (1.3593452027484960522212885423056424704073
      + mx * (1.8457173023588279422916645725184952058635
      + mx * (2.5410717031539207287662105618152273788399
      + mx * (3.5374046552080413366422791595672470037341
      + mx * (4.9692960029774259303491034652093672488707
      + mx * (7.0338228700300311264031522795337352226926
      + mx * (10.020043225034471401553194050933390974016)))))))))))))))
  else if m ≤ 0.5 then
    let mx := 0.55 - mc
    ((0.8394795702706129706783934654948360410325
      + mx * (0.1499164403063963359478614453083470750543
      + mx * (0.0908319358194288345999005586556105610069
      + mx * (0.0803470334833417864262134081954987019902
      + mx * (0.0856384405004704542717663971835424473169
      + mx * (0.1019547259329903716766105911448528069506
      + mx * (0.1305748115336160150072309911623351523284
      + mx * (0.1761050763588499277679704537732929242811
      + mx * (0.2468351644029554468698889593583314853486
      + mx * (0.3564244768677188553323196975301769697977
      + mx * (0.5270025622301027434418321205779314762241
      + mx * (0.7943896342593047502260866957039427731776
      + mx * (1.2167625324297180206378753787253096783993))))))))))))),
     (0.9744043665463696730314687662723484085813
      + mx * (0.6132468053941609101234053415051402349752
      + mx * (0.6710966695021669963502789954058993004082
      + mx * (0.8707276201850861403618528872292437242726
      + mx * (1.2295422312026907609906452348037196571302
      + mx * (1.8266059675444205694817638548699906990301
      + mx * (2.8069345309977627400322167438821024032409
      + mx * (4.4187893290840281339827573139793805587268
      + mx * (7.0832360574787653249799018590860687062869
      + mx * (11.515088120557582942290563338274745712174
      + mx * (18.931511185999274639516732819605594455165
      + mx * (31.411996938204963878089048091424028309798
      + mx * (52.520729454575828537934780076768577185134
      + mx * (88.384854735065298062125622417251073520996
      + mx * (149.56637449398047835236703116483092644714
      + mx * (254.31790843104117434615624121937495622372)))))))))))))))))
  else if m ≤ 0.6 then
    let mx := 0.45 - mc
    ((0.8554696151564199914087224774321783838373
      + mx * (0.1708960726897395844132234165994754905373
      + mx * (0.1213352290269482260207667564010437464156
      + mx * (0.1282018835749474096272901529341076494573
      + mx * (0.1646872814515275597348427294090563472179
      + mx * (0.2374189087493817423375114793658754489958
      + mx * (0.3692081047164954516884561039890508294508
      + mx * (0.6056587338479277173311618664015401963868
      + mx * (1.0337055615578127436826717513776452476106
      + mx * (1.8189884893632678849599091011718520567105
      + mx * (3.2793776512738509375806561547016925831128
      + mx * (6.0298883807175363312261449542978750456611
      + mx * (11.269796855577941715109155203721740735793
      + mx * (21.354577850382834496786315532111529462693)))))))))))))),
     (1.04345529511513353426326823569160142342838
      + mx * (0.77962572192850485048535711388072271372632
      + mx * (1.02974236093206758187389128668777397528702
      + mx * (1.62203722341135313022433907993860147395972
      + mx * (2.78798953118534762046989770119382209443756
      + mx * (5.04838148737206914685643655935236541332892
      + mx * (9.46327761194348429539987572314952029503864
      + mx * (18.1814899494276679043749394081463811247757
      + mx * (35.5809805911791687037085198750213045708148
      + mx * (70.6339354619144501276254906239838074917358
      + mx * (141.828580083433059297030133195739832297859
      + mx * (287.448751250132166257642182637978103762677
      + mx * (587.115384649923076181773192202238389711345
      + mx * (1207.06543522548061603657141890778290399603
      + mx * (2495.58872724866422273012188618178997342537
      + mx * (5184.69242939480644062471334944523925163600
      + mx * (10817.2133369041327524988910635205356016939))))))))))))))))))
  else if m ≤ 0.7 then
    let mx := 0.35 - mc
    ((0.8739200618486431359820482173294324246058
      + mx * (0.1998140574823769459497418213885348159654
      + mx * (0.1727696158780152128147094051876565603862
      + mx * (0.2281069132842021671319791750725846795701
      + mx * (0.3704681411180712197627619157146806221767
      + mx * (0.6792712528848205545443855883980014994450
      + mx * (1.3480084966817573020596179874311042267679
      + mx * (2.8276709768538207038046918250872679902352
      + mx * (6.1794682501239140840906583219887062092430
      + mx * (13.935686010342811497608625663457407447757
      + mx * (32.218929281059722026322932181420383764028
      + mx * (76.006962959226101026399085304912635262362
      + mx * (182.32144908775406957609058046006949657416
      + mx * (443.51507644112648158679360783118806161062
      + mx * (1091.8547229028388292980623647414961662223
      + mx * (2715.7658664038195881056269799613407111521)))))))))))))))),
     (1.13367833657573316571671258513452768536080
      + mx * (1.04864317372997039116746991765351150490010
      + mx * (1.75346504119846451588826580872136305225406
      + mx * (3.52318272680338551269021618722443199230946
      + mx * (7.74947641381397458240336356601913534598302
      + mx * (17.9864500558507330560532617743406294626849
      + mx * (43.2559163462326133313977294448984936591235
      + mx * (106.681534454096017031613223924991564429656
      + mx * (268.098486573117433951562111736259672695883
      + mx * (683.624114850289804796762005964155730439745
      + mx * (1763.49708521918740723028849567007874329637
      + mx * (4592.37475383116380899419201719007475759114
      + mx * (12053.4410190488892782190764838488156555734
      + mx * (31846.6630207420816960681624497373078887317
      + mx * (84621.2213590568080177035346867495326879117
      + mx * (225956.423182907889987641304430180593010940
      + mx * (605941.517281758859958050194535269219533685
      + mx * (1.63108259953926832083633544697688841456604e6)))))))))))))))))))
  else if m ≤ 0.8 then
    let mx := 0.25 - mc
    ((0.895902820924731621258525533131864225704
      + mx * (0.243140003766786661947749288357729051637
      + mx * (0.273081875594105531575351304277604081620
      + mx * (0.486280007533573323895498576715458103274
      + mx * (1.082747437228230914750752674136983406683
      + mx * (2.743445290986452500459431536349945437824
      + mx * (7.555817828670234627048618342026400847824
      + mx * (22.05194082493752427472777448620986154515
      + mx * (67.15640644740229407624192175802742979626
      + mx * (211.2722537881770961691291434845898538537
      + mx * (681.9037843053270682273212958093073895805
      + mx * (2246.956231592536516768812462150619631201
      + mx * (7531.483865999711792004783423815426725079
      + mx * (25608.51260130241579018675054866136922157
      + mx * (88140.74740089604971425934283371277143256
      + mx * (306564.4242098446591430938434419151070722
      + mx * (1.076036077811072193752770590363885180738e6
      + mx * (3.807218502573632648224286313875985190526e6
      + mx * (1.356638224422139551020110323739879481042e7))))))))))))))))))),
     (1.26061282657491161418014946566845780315983
      + mx * (1.54866563808267658056930177790599939977154
      + mx * (3.55366941187160761540650011660758187283401
      + mx * (9.90044467610439875577300608183010716301714
      + mx * (30.3205666174524719862025105898574414438275
      + mx * (98.1802586588830891484913119780870074464833
      + mx * (329.771010434557055036273670551546757245808
      + mx * (1136.65598974289039303581967838947708073239
      + mx * (3993.83433574622979757935610692842933356144
      + mx * (14242.7295865552708506232731633468180669284
      + mx * (51394.7572916887209594591528374806790960057
      + mx * (187246.702914623152141768788258141932569037
      + mx * (687653.092375389902708761221294282367947659
      + mx * (2.54238553565398227033448846432182516906624e6
      + mx * (9.45378121934749027243313241962076028066811e6
      + mx * (3.53283630179709170835024033154326126569613e7
      + mx * (1.32593262383393014923560730485845833322771e8
      + mx * (4.99544968184054821463279808395426941549833e8
      + mx * (1.88840934729443872364972817525484292678543e9
      + mx * (7.16026753447893719179055010636502508063102e9
      + mx *
      (2.72233079469633962247554894093591262281929e10))))))))))))))))))))))
  else if m ≤ 0.85 then
    let mx := 0.175 - mc
    ((0.915922052601931494319853880201442948834592
      + mx * (0.294714252429483394379515488141632749820347
      + mx * (0.435776709264636140422971598963772380161131
      + mx * (1.067328246493644238508159085364429570207744
      + mx * (3.327844118563268085074646976514979307993733
      + mx * (11.90406004445092906188837729711173326621810
      + mx * (46.47838820224626393512400481776284680677096
      + mx * (192.7556002578809476962739389101964074608802
      + mx * (835.3356299261900063712302517586717381557137
      + mx * (3743.124548343029102644419963712353854902019
      + mx * (17219.07731004063094108708549153310467326395
      + mx * (80904.60401669850158353080543152212152282878
      + mx * (386808.3292751742460123683674607895217760313
      + mx * (1.876487670110449342170327796786290400635732e6
      + mx * (9.216559908641567755240142886998737950775910e6))))))))))))))),
     (1.402200569110579095046054435635136986038164
      + mx * (2.322205897861749446534352741005347103992773
      + mx * (7.462158366466719682730245467372788273333992
      + mx * (29.43506890797307903104978364254987042421285
      + mx * (128.1590924337895775262509354898066132182429
      + mx * (591.0807036911982326384997979640812493154316
      + mx * (2830.546229607726377048576057043685514661188
      + mx * (13917.76431889392229954434840686741305556862
      + mx * (69786.10525163921228258055074102587429394212
      + mx * (355234.1420341879634781808899208309503519936
      + mx * (1.830019186413931053503912913904321703777885e6
      + mx * (9.519610812032515607466102200648641326190483e6
      + mx * (4.992086875574849453986274042758566713803723e7
      + mx * (2.635677009826023473846461512029006874800883e8
      + mx * (1.399645765120061118824228996253541612110338e9
      + mx * (7.469935792837635004663183580452618726280406e9
      + mx * (4.004155595835610574316003488168804738481448e10
      + mx *
      (2.154630668144966654449602981243932210695662e11)))))))))))))))))))
  else
    let mx := 0.125 - mc
    ((0.931906061029524827613331428871579482766771
      + mx * (0.348448029538453860999386797137074571589376
      + mx * (0.666809178846938247558793864839434184202736
      + mx * (2.210769135708128662563678717558631573758222
      + mx * (9.491765048913406881414290930355300611703187
      + mx * (47.09304791027740853381457907791343619298913
      + mx * (255.9200460211233087050940506395442544885608
      + mx * (1480.029532675805407554800779436693505109703
      + mx * (8954.040904734313578374783155553041065984547
      + mx * (56052.48220982686949967604699243627330816542
      + mx * (360395.7241626000916973524840479780937869149
      + mx * (2.367539415273216077520928806581689330885103e6
      + mx * (1.582994957277684102454906900025484391190264e7
      + mx * (1.074158093278511100137056972128875270067228e8
      + mx * (7.380585460239595691878086073095523043390649e8
      + mx * (5.126022002555101496684687154904781856830296e9
      + mx * (3.593534065502416588712409180013118409428367e10
      + mx * (2.539881257612812212004146637239987308133582e11
      + mx *
      (1.808180007145359569674767150594344316702507e12))))))))))))))))))),
     (1.541690112721819084362258323861459983048179
      + mx * (3.379176214579645449453938918349243359477706
      + mx * (14.94058385670236671625328259137998668324435
      + mx * (81.91773929235074880784578753539752529822986
      + mx * (497.4900546551479866036061853049402721939835
      + mx * (3205.184010234846235275447901572262470252768
      + mx * (21457.32237355321925571253220641357074594515
      + mx * (147557.0156564174712105689758692929775004292
      + mx * (1.035045290185256525452269053775273002725343e6
      + mx * (7.371922334832212125197513363695905834126154e6
      + mx * (5.314344395142401141792228169170505958906345e7
      + mx * (3.868823475795976312985118115567305767603128e8
      + mx * (2.839458401528033778425531336599562337200510e9
      + mx * (2.098266122943898941547136470383199468548861e10
      + mx * (1.559617754017662417944194874282275405676282e11
      + mx * (1.165096220419884791236699872205721392201682e12
      + mx * (8.742012983013913804987431275193291316808766e12
      + mx * (6.584725462672366918676967847406180155459650e13
      + mx * (4.976798737062434393396993620379481464465749e14
      + mx * (3.773018634056605404718444239040628892506293e15
      + mx *
      (2.868263194837819660109735981973458220407767e16))))))))))))))))))))))

/-- `FukushimaEllipticBsDsMaclaurinSeries` from
`numerics/elliptic_integrals.cpp`: the Maclaurin series values `(b, d)` used at
the bottom of the half-argument transformation, transcribed verbatim. -/
noncomputable def FukushimaEllipticBsDsMaclaurinSeries (y m : ℝ) : ℝ × ℝ :=
  let F10 : ℝ := 1.0 / 6.0
  let F20 : ℝ := 3.0 / 40.0
  let F21 : ℝ := 2.0 / 40.0
  let F30 : ℝ := 5.0 / 112.0
  let F31 : ℝ := 3.0 / 112.0
  let F40 : ℝ := 35.0 / 1152.0
  let F41 : ℝ := 20.0 / 1152.0
  let F42 : ℝ := 18.0 / 1152.0
  let F50 : ℝ := 63.0 / 2816.0
  let F51 : ℝ := 35.0 / 2816.0
  let F52 : ℝ := 30.0 / 2816.0
  let F60 : ℝ := 231.0 / 13312.0
  let F61 : ℝ := 126.0 / 13312.0
  let F62 : ℝ := 105.0 / 13312.0
  let F63 : ℝ := 100.0 / 13312.0
  let F70 : ℝ := 429.0 / 30720.0
  let F71 : ℝ := 231.0 / 30720.0
  let F72 : ℝ := 189.0 / 30720.0
  let F73 : ℝ := 175.0 / 30720.0
  let F80 : ℝ := 6435.0 / 557056.0
  let F81 : ℝ := 3432.0 / 557056.0
  let F82 : ℝ := 2722.0 / 557056.0
  let F83 : ℝ := 2520.0 / 557056.0
  let F84 : ℝ := 2450.0 / 557056.0
  let F90 : ℝ := 12155.0 / 1245184.0
  let F91 : ℝ := 6435.0 / 1245184.0
  let F92 : ℝ := 5148.0 / 1245184.0
  let F93 : ℝ := 4620.0 / 1245184.0
  let F94 : ℝ := 4410.0 / 1245184.0
  let FA0 : ℝ := 46189.0 / 5505024.0
  let FA1 : ℝ := 24310.0 / 5505024.0
  let FA2 : ℝ := 19305.0 / 5505024.0
  let FA3 : ℝ := 17160.0 / 5505024.0
  let FA4 : ℝ := 16170.0 / 5505024.0
  let FA5 : ℝ := 15876.0 / 5505024.0
  let FB0 : ℝ := 88179.0 / 12058624.0
  let FB1 : ℝ := 46189.0 / 12058624.0
  let FB2 : ℝ := 36465.0 / 12058624.0
  let FB3 : ℝ := 32175.0 / 12058624.0
  let FB4 : ℝ := 30030.0 / 12058624.0
  let FB5 : ℝ := 29106.0 / 12058624.0
  let A1 : ℝ := 3.0 / 5.0
  let A2 : ℝ := 5.0 / 7.0
  let A3 : ℝ := 7.0 / 9.0
  let A4 : ℝ := 9.0 / 11.0
  let A5 : ℝ := 11.0 / 13.0
  let A6 : ℝ := 13.0 / 15.0
  let A7 : ℝ := 15.0 / 17.0
  let A8 : ℝ := 17.0 / 19.0
  let A9 : ℝ := 19.0 / 21.0
  let AA : ℝ := 21.0 / 23.0
  let AB : ℝ := 23.0 / 25.0
  let D0 : ℝ := 1.0 / 3.0
  let F1 := (F10 + m * F10)
  let F2 := (F20 + m * (F21 + m * F20))
  let F3 := (F30 + m * (F31 + m * (F31 + m * F30)))
  let F4 := (F40 + m * (F41 + m * (F42 + m * (F41 + m * F40))))
  let F5 := (F50 + m * (F51 + m * (F52 + m * (F52 + m * (F51 + m * F50)))))
  let F6 := (F60 + m * (F61 + m * (F62 + m * (F63 + m * (F62 + m * (F61 +
           m * F60))))))
  let F7 := (F70 + m * (F71 + m * (F72 + m * (F73 + m * (F73 + m * (F72 + m * (F71 +
           m * F70)))))))
  let F8 := (F80 + m * (F81 + m * (F82 + m * (F83 + m * (F84 + m * (F83 + m * (F82 +
           m * (F81 + m * F80))))))))
  let F9 := (F90 + m * (F91 + m * (F92 + m * (F93 + m * (F94 + m * (F94 + m * (F93 +
           m * (F92 + m * (F91 + m * F90)))))))))
  let FA := (FA0 + m * (FA1 + m * (FA2 + m * (FA3 + m * (FA4 + m * (FA5 + m * (FA4 +
           m * (FA3 + m * (FA2 + m * (FA1 + m * FA0))))))))))
  let FB := (FB0 + m * (FB1 + m * (FB2 + m * (FB3 + m * (FB4 + m * (FB5 + m * (FB5 +
           m * (FB4 + m * (FB3 + m * (FB2 + m * (FB1 + m * FB0)))))))))))
  let Dv1 := F1 * A1
  let Dv2 := F2 * A2
  let Dv3 := F3 * A3
  let Dv4 := F4 * A4
  let Dv5 := F5 * A5
  let Dv6 := F6 * A6
  let Dv7 := F7 * A7
  let Dv8 := F8 * A8
  let Dv9 := F9 * A9
  let DvA := FA * AA
  let DvB := FB * AB
  let d :=
    (D0 +
     y * (Dv1 +
      y * (Dv2 +
       y * (Dv3 +
        y * (Dv4 +
         y * (Dv5 +
          y * (Dv6 +
           y * (Dv7 +
            y * (Dv8 +
             y * (Dv9 +
              y * (DvA + y * DvB)))))))))))
  let Bv1 := F1 - D0
  let Bv2 := F2 - Dv1
  let Bv3 := F3 - Dv2
  let Bv4 := F4 - Dv3
  let Bv5 := F5 - Dv4
  let Bv6 := F6 - Dv5
  let Bv7 := F7 - Dv6
  let Bv8 := F8 - Dv7
  let Bv9 := F9 - Dv8
  let BvA := FA - Dv9
  let BvB := FB - DvA
  let b :=
    (1.0 +
     y * (Bv1 +
      y * (Bv2 +
       y * (Bv3 +
        y * (Bv4 +
         y * (Bv5 +
          y * (Bv6 +
           y * (Bv7 +
            y * (Bv8 +
             y * (Bv9 +
              y * (BvA + y * BvB)))))))))))
  (b, d)

/-- `FukushimaEllipticJsMaclaurinSeries` from
`numerics/elliptic_integrals.cpp`: the bivariate Maclaurin series for `Js`,
transcribed verbatim including the degree dispatch on `y`. -/
noncomputable def FukushimaEllipticJsMaclaurinSeries (y n m : ℝ) : ℝ :=
  let J100 : ℝ := 1.0 / 3.0
  let J200 : ℝ := 1.0 / 10.0
  let J201 : ℝ := 2.0 / 10.0
  let J210 : ℝ := 1.0 / 10.0
  let J300 : ℝ := 3.0 / 56.0
  let J301 : ℝ := 4.0 / 56.0
  let J302 : ℝ := 8.0 / 56.0
  let J310 : ℝ := 2.0 / 56.0
  let J311 : ℝ := 4.0 / 56.0
  let J320 : ℝ := 3.0 / 56.0
  let J400 : ℝ := 5.0 / 144.0
  let J401 : ℝ := 6.0 / 144.0
  let J402 : ℝ := 8.0 / 144.0
  let J403 : ℝ := 16.0 / 144.0
  let J410 : ℝ := 3.0 / 144.0
  let J411 : ℝ := 4.0 / 144.0
  let J412 : ℝ := 8.0 / 144.0
  let J420 : ℝ := 3.0 / 144.0
  let J421 : ℝ := 6.0 / 144.0
  let J430 : ℝ := 5.0 / 144.0
  let J500 : ℝ := 35.0 / 1408.0
  let J501 : ℝ := 40.0 / 1408.0
  let J502 : ℝ := 48.0 / 1408.0
  let J503 : ℝ := 64.0 / 1408.0
  let J504 : ℝ := 128.0 / 1408.0
  let J510 : ℝ := 20.0 / 1408.0
  let J511 : ℝ := 24.0 / 1408.0
  let J512 : ℝ := 32.0 / 1408.0
  let J513 : ℝ := 64.0 / 1408.0
  let J520 : ℝ := 18.0 / 1408.0
  let J521 : ℝ := 24.0 / 1408.0
  let J522 : ℝ := 48.0 / 1408.0
  let J530 : ℝ := 20.0 / 1408.0
  let J531 : ℝ := 40.0 / 1408.0
  let J540 : ℝ := 35.0 / 1408.0
  let J600 : ℝ := 63.0 / 3328.0
  let J601 : ℝ := 70.0 / 3328.0
  let J602 : ℝ := 80.0 / 3328.0
  let J603 : ℝ := 96.0 / 3328.0
  let J604 : ℝ := 128.0 / 3328.0
  let J605 : ℝ := 256.0 / 3328.0
  let J610 : ℝ := 35.0 / 3328.0
  let J611 : ℝ := 40.0 / 3328.0
  let J612 : ℝ := 48.0 / 3328.0
  let J613 : ℝ := 64.0 / 3328.0
  let J614 : ℝ := 128.0 / 3328.0
  let J620 : ℝ := 30.0 / 3328.0
  let J621 : ℝ := 36.0 / 3328.0
  let J622 : ℝ := 48.0 / 3328.0
  let J623 : ℝ := 96.0 / 3328.0
  let J630 : ℝ := 30.0 / 3328.0
  let J631 : ℝ := 40.0 / 3328.0
  let J632 : ℝ := 80.0 / 3328.0
  let J640 : ℝ := 35.0 / 3328.0
  let J641 : ℝ := 70.0 / 3328.0
  let J650 : ℝ := 63.0 / 3328.0
  let J700 : ℝ := 231.0 / 15360.0
  let J701 : ℝ := 252.0 / 15360.0
  let J702 : ℝ := 280.0 / 15360.0
  let J703 : ℝ := 320.0 / 15360.0
  let J704 : ℝ := 384.0 / 15360.0
  let J705 : ℝ := 512.0 / 15360.0
  let J706 : ℝ := 1024.0 / 15360.0
  let J710 : ℝ := 126.0 / 15360.0
  let J711 : ℝ := 140.0 / 15360.0
  let J712 : ℝ := 160.0 / 15360.0
  let J713 : ℝ := 192.0 / 15360.0
  let J714 : ℝ := 256.0 / 15360.0
  let J715 : ℝ := 512.0 / 15360.0
  let J720 : ℝ := 105.0 / 15360.0
  let J721 : ℝ := 120.0 / 15360.0
  let J722 : ℝ := 144.0 / 15360.0
  let J723 : ℝ := 192.0 / 15360.0
  let J724 : ℝ := 384.0 / 15360.0
  let J730 : ℝ := 100.0 / 15360.0
  let J731 : ℝ := 120.0 / 15360.0
  let J732 : ℝ := 160.0 / 15360.0
  let J733 : ℝ := 320.0 / 15360.0
  let J740 : ℝ := 105.0 / 15360.0
  let J741 : ℝ := 140.0 / 15360.0
  let J742 : ℝ := 280.0 / 15360.0
  let J750 : ℝ := 126.0 / 15360.0
  let J751 : ℝ := 252.0 / 15360.0
  let J760 : ℝ := 231.0 / 15360.0
  let J800 : ℝ := 429.0 / 34816.0
  let J801 : ℝ := 462.0 / 34816.0
  let J802 : ℝ := 504.0 / 34816.0
  let J803 : ℝ := 560.0 / 34816.0
  let J804 : ℝ := 640.0 / 34816.0
  let J805 : ℝ := 768.0 / 34816.0
  let J806 : ℝ := 1024.0 / 34816.0
  let J807 : ℝ := 2048.0 / 34816.0
  let J810 : ℝ := 231.0 / 34816.0
  let J811 : ℝ := 252.0 / 34816.0
  let J812 : ℝ := 280.0 / 34816.0
  let J813 : ℝ := 320.0 / 34816.0
  let J814 : ℝ := 384.0 / 34816.0
  let J815 : ℝ := 512.0 / 34816.0
  let J816 : ℝ := 1024.0 / 34816.0
  let J820 : ℝ := 189.0 / 34816.0
  let J821 : ℝ := 210.0 / 34816.0
  let J822 : ℝ := 240.0 / 34816.0
  let J823 : ℝ := 288.0 / 34816.0
  let J824 : ℝ := 284.0 / 34816.0
  let J825 : ℝ := 768.0 / 34816.0
  let J830 : ℝ := 175.0 / 34816.0
  let J831 : ℝ := 200.0 / 34816.0
  let J832 : ℝ := 240.0 / 34816.0
  let J833 : ℝ := 320.0 / 34816.0
  let J834 : ℝ := 640.0 / 34816.0
  let J840 : ℝ := 175.0 / 34816.0
  let J841 : ℝ := 210.0 / 34816.0
  let J842 : ℝ := 280.0 / 34816.0
  let J843 : ℝ := 560.0 / 34816.0
  let J850 : ℝ := 189.0 / 34816.0
  let J851 : ℝ := 252.0 / 34816.0
  let J852 : ℝ := 504.0 / 34816.0
  let J860 : ℝ := 231.0 / 34816.0
  let J861 : ℝ := 462.0 / 34816.0
  let J870 : ℝ := 429.0 / 34816.0
  let J900 : ℝ := 6435.0 / 622592.0
  let J901 : ℝ := 6864.0 / 622592.0
  let J902 : ℝ := 7392.0 / 622592.0
  let J903 : ℝ := 8064.0 / 622592.0
  let J904 : ℝ := 8960.0 / 622592.0
  let J905 : ℝ := 10240.0 / 622592.0
  let J906 : ℝ := 12288.0 / 622592.0
  let J907 : ℝ := 16384.0 / 622592.0
  let J908 : ℝ := 32768.0 / 622592.0
  let J910 : ℝ := 3432.0 / 622592.0
  let J911 : ℝ := 3696.0 / 622592.0
  let J912 : ℝ := 4032.0 / 622592.0
  let J913 : ℝ := 4480.0 / 622592.0
  let J914 : ℝ := 5120.0 / 622592.0
  let J915 : ℝ := 6144.0 / 622592.0
  let J916 : ℝ := 8192.0 / 622592.0
  let J917 : ℝ := 16384.0 / 622592.0
  let J920 : ℝ := 2772.0 / 622592.0
  let J921 : ℝ := 3024.0 / 622592.0
  let J922 : ℝ := 3360.0 / 622592.0
  let J923 : ℝ := 3840.0 / 622592.0
  let J924 : ℝ := 4608.0 / 622592.0
  let J925 : ℝ := 6144.0 / 622592.0
  let J926 : ℝ := 12288.0 / 622592.0
  let J930 : ℝ := 2520.0 / 622592.0
  let J931 : ℝ := 2800.0 / 622592.0
  let J932 : ℝ := 3200.0 / 622592.0
  let J933 : ℝ := 3840.0 / 622592.0
  let J934 : ℝ := 5120.0 / 622592.0
  let J935 : ℝ := 10240.0 / 622592.0
  let J940 : ℝ := 2450.0 / 622592.0
  let J941 : ℝ := 2800.0 / 622592.0
  let J942 : ℝ := 3360.0 / 622592.0
  let J943 : ℝ := 4480.0 / 622592.0
  let J944 : ℝ := 8960.0 / 622592.0
  let J950 : ℝ := 2520.0 / 622592.0
  let J951 : ℝ := 3024.0 / 622592.0
  let J952 : ℝ := 4032.0 / 622592.0
  let J953 : ℝ := 8064.0 / 622592.0
  let J960 : ℝ := 2772.0 / 622592.0
  let J961 : ℝ := 3696.0 / 622592.0
  let J962 : ℝ := 7392.0 / 622592.0
  let J970 : ℝ := 3432.0 / 622592.0
  let J971 : ℝ := 6864.0 / 622592.0
  let J980 : ℝ := 6435.0 / 622592.0
  let JA00 : ℝ := 12155.0 / 1376256.0
  let JA01 : ℝ := 12870.0 / 1376256.0
  let JA02 : ℝ := 13728.0 / 1376256.0
  let JA03 : ℝ := 14784.0 / 1376256.0
  let JA04 : ℝ := 16128.0 / 1376256.0
  let JA05 : ℝ := 17920.0 / 1376256.0
  let JA06 : ℝ := 20480.0 / 1376256.0
  let JA07 : ℝ := 24576.0 / 1376256.0
  let JA08 : ℝ := 32768.0 / 1376256.0
  let JA09 : ℝ := 65536.0 / 1376256.0
  let JA10 : ℝ := 6435.0 / 1376256.0
  let JA11 : ℝ := 6864.0 / 1376256.0
  let JA12 : ℝ := 7392.0 / 1376256.0
  let JA13 : ℝ := 8064.0 / 1376256.0
  let JA14 : ℝ := 8960.0 / 1376256.0
  let JA15 : ℝ := 10240.0 / 1376256.0
  let JA16 : ℝ := 12288.0 / 1376256.0
  let JA17 : ℝ := 16384.0 / 1376256.0
  let JA18 : ℝ := 32768.0 / 1376256.0
  let JA20 : ℝ := 5148.0 / 1376256.0
  let JA21 : ℝ := 5544.0 / 1376256.0
  let JA22 : ℝ := 6048.0 / 1376256.0
  let JA23 : ℝ := 6720.0 / 1376256.0
  let JA24 : ℝ := 7680.0 / 1376256.0
  let JA25 : ℝ := 9216.0 / 1376256.0
  let JA26 : ℝ := 12288.0 / 1376256.0
  let JA27 : ℝ := 24576.0 / 1376256.0
  let JA30 : ℝ := 4620.0 / 1376256.0
  let JA31 : ℝ := 5040.0 / 1376256.0
  let JA32 : ℝ := 5600.0 / 1376256.0
  let JA33 : ℝ := 6400.0 / 1376256.0
  let JA34 : ℝ := 7680.0 / 1376256.0
  let JA35 : ℝ := 10240.0 / 1376256.0
  let JA36 : ℝ := 20480.0 / 1376256.0
  let JA40 : ℝ := 4410.0 / 1376256.0
  let JA41 : ℝ := 4900.0 / 1376256.0
  let JA42 : ℝ := 5600.0 / 1376256.0
  let JA43 : ℝ := 6720.0 / 1376256.0
  let JA44 : ℝ := 8960.0 / 1376256.0
  let JA45 : ℝ := 17920.0 / 1376256.0
  let JA50 : ℝ := 4410.0 / 1376256.0
  let JA51 : ℝ := 5040.0 / 1376256.0
  let JA52 : ℝ := 6048.0 / 1376256.0
  let JA53 : ℝ := 8064.0 / 1376256.0
  let JA54 : ℝ := 16128.0 / 1376256.0
  let JA60 : ℝ := 4620.0 / 1376256.0
  let JA61 : ℝ := 5544.0 / 1376256.0
  let JA62 : ℝ := 7392.0 / 1376256.0
  let JA63 : ℝ := 14784.0 / 1376256.0
  let JA70 : ℝ := 5148.0 / 1376256.0
  let JA71 : ℝ := 6864.0 / 1376256.0
  let JA72 : ℝ := 13728.0 / 1376256.0
  let JA80 : ℝ := 6435.0 / 1376256.0
  let JA81 : ℝ := 12870.0 / 1376256.0
  let JA90 : ℝ := 12155.0 / 1376256.0
  let J1 := J100
  let J2 := (J200 + n * J201 + m * J210)
  let J3 := (J300 + n * (J301 + n * J302) + m * (J310 + n * J311 + m * J320))
  let J4 := (J400 + n * (J401 + n * (J402 + n * J403)) +
     m * (J410 + n * (J411 + n * J412) + m * (J420 + n * J421 + m * J430)))
  let J5 := (J500 + n * (J501 + n * (J502 + n * (J503 + n * J504))) +
     m * (J510 + n * (J511 + n * (J512 + n * J513)) +
     m * (J520 + n * (J521 + n * J522) +
     m * (J530 + n * J531 + m * J540))))
  if y ≤ 6.0369310e-04 then
    (y * (J1 + y * (J2 + y * (J3 + y * (J4 + y * J5)))))
  else
  let J6 := (J600 + n * (J601 + n * (J602 + n * (J603 + n * (J604 + n * J605)))) +
     m * (J610 + n * (J611 + n * (J612 + n * (J613 + n * J614))) +
     m * (J620 + n * (J621 + n * (J622 + n * J623)) +
     m * (J630 + n * (J631 + n * J632) +
     m * (J640 + n * J641 + m * J650)))))
  if y ≤ 2.0727505e-03 then
    (y * (J1 + y * (J2 + y * (J3 + y * (J4 + y * (J5 + y * J6))))))
  else
  let J7 := (J700 +
     n * (J701 +
     n * (J702 + n * (J703 + n * (J704 + n * (J705 + n * J706))))) +
     m * (J710 + n * (J711 + n * (J712 + n * (J713 + n * (J714 + n * J715)))) +
     m * (J720 + n * (J721 + n * (J722 + n * (J723 + n * J724))) +
     m * (J730 + n * (J731 + n * (J732 + n * J733)) +
     m * (J740 + n * (J741 + n * J742) +
     m * (J750 + n * J751 + m * J760))))))
  if y ≤ 5.0047026e-03 then
    (y *
     (J1 + y * (J2 + y * (J3 + y * (J4 + y * (J5 + y * (J6 + y * J7)))))))
  else
  let J8 := (J800 +
     n * (J801 +
     n * (J802 +
     n * (J803 + n * (J804 + n * (J805 + n * (J806 + n * J807)))))) +
     m * (J810 +
     n * (J811 +
     n * (J812 + n * (J813 + n * (J814 + n * (J815 + n * J816))))) +
     m * (J820 +
     n * (J821 + n * (J822 + n * (J823 + n * (J824 + n * J825)))) +
     m * (J830 + n * (J831 + n * (J832 + n * (J833 + n * J834))) +
     m * (J840 + n * (J841 + n * (J842 + n * J843)) +
     m * (J850 + n * (J851 + n * J852) +
     m * (J860 + n * J861 + m * J870)))))))
  if y ≤ 9.6961652e-03 then
    (y * (J1 +
     y * (J2 +
      y * (J3 +
       y * (J4 + y * (J5 + y * (J6 + y * (J7 + y * J8))))))))
  else
  let J9 := (J900 +
     n * (J901 +
     n * (J902 +
     n * (J903 +
     n * (J904 +
     n * (J905 + n * (J906 + n * (J907 + n * J908))))))) +
     m * (J910 +
     n * (J911 +
     n * (J912 +
     n * (J913 +
     n * (J914 + n * (J915 + n * (J916 + n * J917)))))) +
     m * (J920 +
     n * (J921 +
     n * (J922 +
     n * (J923 + n * (J924 + n * (J925 + n * J926))))) +
     m * (J930 +
     n * (J931 +
     n * (J932 + n * (J933 + n * (J934 + n * J935)))) +
     m * (J940 +
     n * (J941 + n * (J942 + n * (J943 + n * J944))) +
     m * (J950 + n * (J951 + n * (J952 + n * J953)) +
     m * (J960 + n * (J961 + n * J962) +
     m * (J970 + n * J971 + m * J980))))))))
  if y ≤ 1.6220210e-02 then
    (y *
     (J1 +
      y * (J2 +
       y * (J3 +
        y * (J4 +
         y * (J5 +
          y * (J6 + y * (J7 + y * (J8 + y * J9)))))))))
  else
  let JA := (JA00 +
     n * (JA01 +
     n * (JA02 +
     n * (JA03 +
     n * (JA04 +
     n * (JA05 +
     n * (JA06 +
     n * (JA07 + n * (JA08 + n * JA09)))))))) +
     m * (JA10 +
     n * (JA11 +
     n * (JA12 +
     n * (JA13 +
     n * (JA14 +
     n * (JA15 +
     n * (JA16 + n * (JA17 + n * JA18))))))) +
     m * (JA20 +
     n * (JA21 +
     n * (JA22 +
     n * (JA23 +
     n * (JA24 +
     n * (JA25 + n * (JA26 + n * JA27)))))) +
     m * (JA30 +
     n * (JA31 +
     n * (JA32 +
     n * (JA33 +
     n * (JA34 + n * (JA35 + n * JA36))))) +
     m * (JA40 +
     n * (JA41 +
     n * (JA42 +
     n * (JA43 + n * (JA44 + n * JA45)))) +
     m * (JA50 +
     n * (JA51 + n * (JA52 + n * (JA53 + n * JA54))) +
     m * (JA60 + n * (JA61 + n * (JA62 + n * JA63)) +
     m * (JA70 + n * (JA71 + n * JA72) +
     m * (JA80 + n * JA81 +
     m * JA90)))))))))
  (y * (J1 +
    y * (J2 +
     y * (J3 +
      y * (J4 +
       y * (J5 +
        y * (J6 +
         y * (J7 +
          y * (J8 + y * (J9 + y * JA))))))))))

/-- The stateful `elk` of `numerics/elliptic_functions.cpp`: the `save`d
`mcold`/`elkold` pair is a cache of the most recently used argument and result,
global mutable state in the source, modelled here by explicit state passing.
The state is `(mcold, elkold)`; the `first`-call initialisation sets it to
`(1.0, π/2)`.  A call returns the result together with the new state (the
source unconditionally ends with `mcold = mc; elkold = elk`).  The cache hit
test is `|mc - mcold| < 1.11e-16 * mc`. -/
noncomputable def elk_call (state : ℝ × ℝ) (mc : ℝ) : ℝ × (ℝ × ℝ) :=
  let m := 1.0 - mc
  if |m| < 1.0e-16 then (Real.pi / 2, (mc, Real.pi / 2))
  else if |mc - state.1| < 1.11e-16 * mc then (state.2, (mc, state.2))
  else (elk0 mc, (mc, elk0 mc))

/-- The complete-integral overload `FukushimaEllipticBDJ(nc, mc)` of the
source: `(B, D)` from `FukushimaEllipticBD` and
`J = BulirschCel(√mc, nc, 0, 1)`. -/
noncomputable def FukushimaEllipticBDJ (nc mc : ℝ) : Except Err (ℝ × ℝ × ℝ) :=
  let bd := FukushimaEllipticBD mc
  match BulirschCel (Real.sqrt mc) nc 0.0 1.0 with
  | .error e => .error e
  | .ok jc => .ok (bd.1, bd.2, jc)

/-- The bottom of the sine-entry half-argument ladder: the Maclaurin values
`b = s·B(y, m)`, `d = s·y·D(y, m)`, `j = s·Js(y, n, m)` assembled exactly as in
the source after the forward loop exits. -/
noncomputable def bsdsjsBase (n m s₀ y₀ : ℝ) : ℝ × ℝ × ℝ :=
  let bd := FukushimaEllipticBsDsMaclaurinSeries y₀ m
  (s₀ * bd.1, s₀ * y₀ * bd.2, s₀ * FukushimaEllipticJsMaclaurinSeries y₀ n m)

/-- The recursive core of `FukushimaEllipticBsDsJs`.  The source records up to
10 half-argument transformation levels (`y`, `s`, `cd` arrays with
`DCHECK_LT(i, max_transformations)`, `max_transformations = 10`) in a forward
loop running while `y ≥ yB = 0.01622`, and then walks the levels backwards with
the double-argument update; this is the same computation written recursively,
one level per call, with the level bound as fuel.  Entering a level with no
fuel left is the source's `DCHECK` failure, `.error .outOfFuel`. -/
noncomputable def bsdsjsRec (n m h : ℝ) : ℕ → ℝ → ℝ → Except Err (ℝ × ℝ × ℝ)
  | 0, s₀, y₀ =>
    if y₀ < 0.01622 then .ok (bsdsjsBase n m s₀ y₀) else .error .outOfFuel
  | fuel + 1, s₀, y₀ =>
    if y₀ < 0.01622 then .ok (bsdsjsBase n m s₀ y₀)
    else
      let c := Real.sqrt (1.0 - y₀)
      let d := Real.sqrt (1.0 - m * y₀)
      let y₁ := y₀ / ((1.0 + c) * (1.0 + d))
      match bsdsjsRec n m h fuel (Real.sqrt y₁) y₁ with
      | .error e => .error e
      | .ok (b, dd, j) =>
        let sy := s₀ * y₁
        let t := sy / (1.0 - n * (y₀ - y₁ * (c * d)))
        .ok (2.0 * b - sy, dd + (dd + sy), j + (j + FukushimaT t h))

/-- `FukushimaEllipticBsDsJs` from `numerics/elliptic_integrals.cpp`:
incomplete integrals `(b, d, j)` with arcsin argument `s₀`.  `m = 1 - mc`,
`h = n(1 - n)(n - m)`, `y₀ = s₀²`. -/
noncomputable def FukushimaEllipticBsDsJs (s₀ n mc : ℝ) : Except Err (ℝ × ℝ × ℝ) :=
  let m := 1.0 - mc
  let h := n * (1.0 - n) * (n - m)
  bsdsjsRec n m h 10 s₀ (s₀ * s₀)

/-- The recursive core of `FukushimaEllipticBcDcJc` (cosine entry).  The
forward loop of the source runs while `x ≤ xS = 0.1` (at most
`max_transformations = 10` levels), switches to `FukushimaEllipticBsDsJs` on
`s = √(1 - x)`, and walks back with the same double-argument update as the
sine entry.  One level per call; fuel is the level bound. -/
noncomputable def bcdcjcRec (n mc m h : ℝ) : ℕ → ℝ → ℝ → Except Err (ℝ × ℝ × ℝ)
  | 0, _, x =>
    if 0.1 < x then FukushimaEllipticBsDsJs (Real.sqrt (1.0 - x)) n mc
    else .error .outOfFuel
  | fuel + 1, c, x =>
    if 0.1 < x then FukushimaEllipticBsDsJs (Real.sqrt (1.0 - x)) n mc
    else
      let d := Real.sqrt (mc + m * x)
      let x' := (c + d) / (1.0 + d)
      match bcdcjcRec n mc m h fuel (Real.sqrt x') x' with
      | .error e => .error e
      | .ok (b, dd, j) =>
        let y := 1.0 - x
        let y' := 1.0 - x'
        let sy := Real.sqrt y * y'
        let t := sy / (1.0 - n * (y - y' * (c * d)))
        .ok (2.0 * b - sy, dd + (dd + sy), j + (j + FukushimaT t h))

/-- `FukushimaEllipticBcDcJc` from `numerics/elliptic_integrals.cpp`:
incomplete integrals `(b, d, j)` with arccos argument `c₀`.  `x₀ = c₀²`. -/
noncomputable def FukushimaEllipticBcDcJc (c₀ n mc : ℝ) : Except Err (ℝ × ℝ × ℝ) :=
  let m := 1.0 - mc
  let h := n * (1.0 - n) * (n - m)
  bcdcjcRec n mc m h 10 c₀ (c₀ * c₀)

/-- The incomplete-integral overload `FukushimaEllipticBDJ(φ, n, mc)` of the
source, with the angle modelled as a real number of radians.  Top-level
dispatch: below `φs = 1.249` call the sine entry on `sin φ`; above, compare
`cos²φ` with `ys·(mc + m·cos²φ)` (`ys = 0.9`) and a secondary test to choose
between the cosine entry and a one-level complementary-angle identity through
the complete integral at `nc = 1 - n`. -/
noncomputable def FukushimaEllipticBDJAngle (φ n mc : ℝ) : Except Err (ℝ × ℝ × ℝ) :=
  if φ < 1.249 then FukushimaEllipticBsDsJs (Real.sin φ) n mc
  else
    let m := 1.0 - mc
    let nc := 1.0 - n
    let h := n * nc * (n - m)
    let c := Real.cos φ
    let c2 := c * c
    let z2d := mc + m * c2
    if c2 < 0.9 * z2d then
      let z := c / Real.sqrt z2d
      match FukushimaEllipticBsDsJs z n mc with
      | .error e => .error e
      | .ok (b, d, j) =>
        match FukushimaEllipticBDJ nc mc with
        | .error e => .error e
        | .ok (bc, dc, jc) =>
          let sz := z * Real.sqrt (1.0 - c2)
          let t := sz / nc
          .ok (bc - (b - sz), dc - (d + sz), jc - (j + FukushimaT t h))
    else
      let w2n := mc * (1.0 - c2)
      if w2n < c2 * z2d then FukushimaEllipticBcDcJc c n mc
      else
        let w2mc := (1.0 - c2) / z2d
        match FukushimaEllipticBcDcJc (Real.sqrt (mc * w2mc)) n mc with
        | .error e => .error e
        | .ok (b, d, j) =>
          match FukushimaEllipticBDJ nc mc with
          | .error e => .error e
          | .ok (bc, dc, jc) =>
            let sz := c * Real.sqrt w2mc
            let t := sz / nc
            .ok (bc - (b - sz), dc - (d + sz), jc - (j + FukushimaT t h))

/-- The halving loop of `scd2`: `do n=0,20 { if (u0 < uT) exit; u0 = u0/2 }`.
Returns the number of halvings performed and the halved argument.  If all 21
tests fail the source prints an error message and proceeds anyway with the
21-times-halved argument, which is what the exhausted case produces. -/
noncomputable def scd2Halve (uT : ℝ) : ℝ → ℕ → ℕ × ℝ
  | u0, 0 => (0, u0)
  | u0, fuel + 1 =>
    if u0 < uT then (0, u0)
    else
      let r := scd2Halve uT (u0 * 0.5) fuel
      (r.1 + 1, r.2)

/-- One step of the plain duplication recurrence of `scd2` on `(a, b)`:
`y = b(2a - b); z = a²; my = m·y; b = 2y(z - my); a = z² - my·y`. -/
noncomputable def scd2DupStep (m : ℝ) (ab : ℝ × ℝ) : ℝ × ℝ :=
  let a := ab.1
  let b := ab.2
  let y := b * (a * 2.0 - b)
  let z := a * a
  let my := m * y
  (z * z - my * y, (y * 2.0) * (z - my))

/-- `n` iterations of the plain duplication recurrence. -/
noncomputable def scd2DupIter (m : ℝ) : ℕ → ℝ × ℝ → ℝ × ℝ
  | 0, ab => ab
  | k + 1, ab => scd2DupIter m k (scd2DupStep m ab)

/-- One step of the cancellation-avoiding recurrence of `scd2` on `(c, a)`:
`x = c²; z = a²; w = m·x² - mc·z²; xz = x·z; c = 2mc·xz + w; a = 2m·xz - w`. -/
noncomputable def scd2CancelStep (m mc : ℝ) (ca : ℝ × ℝ) : ℝ × ℝ :=
  let c := ca.1
  let a := ca.2
  let x := c * c
  let z := a * a
  let w := m * x * x - mc * z * z
  let xz := x * z
  ((mc * 2.0) * xz + w, (m * 2.0) * xz - w)

/-- Iterated cancellation-avoiding recurrence. -/
noncomputable def scd2CancelIter (m mc : ℝ) : ℕ → ℝ × ℝ → ℝ × ℝ
  | 0, ca => ca
  | k + 1, ca => scd2CancelIter m mc k (scd2CancelStep m mc ca)

/-- The terminal step of the plain branch of `scd2`:
`b = b/a; y = b(2 - b); c = 1 - b; s = √y; d = √(1 - m·y)`, returning
`(s, c, d)`. -/
noncomputable def scd2Finish (m : ℝ) (ab : ℝ × ℝ) : ℝ × ℝ × ℝ :=
  let b := ab.2 / ab.1
  let y := b * (2.0 - b)
  (Real.sqrt y, 1.0 - b, Real.sqrt (1.0 - m * y))

/-- The conditional duplication loop of `scd2` (the `u ≥ uA` branch): at each
of the remaining steps, if the cancellation test `z < 2·m·y` fires, run the
cancellation-avoiding recurrence on `(c, a) = (a - b, a)` for all the remaining
steps and finish through `c = c/a; x = c²; s = √(1 - x); d = √(mc + m·x)`;
otherwise take a plain duplication step. -/
noncomputable def scd2CondLoop (m mc : ℝ) : ℕ → ℝ × ℝ → ℝ × ℝ × ℝ
  | 0, ab => scd2Finish m ab
  | k + 1, ab =>
    let a := ab.1
    let b := ab.2
    let y := b * (a * 2.0 - b)
    let z := a * a
    let my := m * y
    if z < my * 2.0 then
      let ca := scd2CancelIter m mc (k + 1) (a - b, a)
      let c := ca.1 / ca.2
      let x := c * c
      (Real.sqrt (1.0 - x), c, Real.sqrt (mc + m * x))
    else scd2CondLoop m mc k (z * z - my * y, (y * 2.0) * (z - my))

/-- `scd2` from `numerics/elliptic_functions.cpp`: Jacobi `(sn, cn, dn)` for a
limited argument `0 ≤ u < K/2` by conditional duplication: halve `u` below
`uT = 5.217e-3 - 2.143e-3·m` (at most 21 times), seed `a = 1` and the
low-order series for `b`, then duplicate back, choosing the plain loop for
`u < uA = 1.76269 + 1.16357·mc` and the conditional loop otherwise. -/
noncomputable def scd2 (u mc : ℝ) : ℝ × ℝ × ℝ :=
  let m := 1.0 - mc
  let uA := 1.76269 + mc * 1.16357
  let uT := 5.217e-3 - m * 2.143e-3
  let nu := scd2Halve uT u 21
  let v := nu.2 * nu.2
  let b := v * (0.5 - v * (1.0 / 24.0 + m * (1.0 / 6.0) -
    v * (1.0 / 720.0 + m * (11.0 / 180.0 + m * (1.0 / 45.0)))))
  if u < uA then scd2Finish m (scd2DupIter m nu.1 (1.0, b))
  else scd2CondLoop m mc nu.1 (1.0, b)

/-- The sign-independent part of `Gscd`: the computation on `ux = |u|`.  Below
`0.785` call `scd2` directly; otherwise reduce modulo `4K`
(`ux - 4K·⌊ux/4K⌋`; the source's `static_cast<int>` truncation equals the
floor on the actual domain `ux ≥ 0`, `K > 0`) and dispatch over the eight
octants, reconstructing `(s, c, d)` with the quarter-period identities.  The
call to `elk` is modelled with the fresh value `elk0 mc`; the cache of the
stateful `elk` is studied separately through `elk_call`. -/
noncomputable def gscdCore (ux₀ mc : ℝ) : ℝ × ℝ × ℝ :=
  let kc := Real.sqrt mc
  if ux₀ < 0.785 then scd2 ux₀ mc
  else
    let k := elk0 mc
    let kh := k * 0.5
    let kh3 := k * 1.5
    let kh5 := k * 2.5
    let kh7 := k * 3.5
    let k2 := k * 2.0
    let k3 := k * 3.0
    let k4 := k * 4.0
    let ux := ux₀ - k4 * ((⌊ux₀ / k4⌋ : ℤ) : ℝ)
    if ux < kh then scd2 ux mc
    else if ux < k then
      let r := scd2 (k - ux) mc
      let s := r.1
      let c := r.2.1
      let d := r.2.2
      (c / d, kc * s / d, kc / d)
    else if ux < kh3 then
      let r := scd2 (ux - k) mc
      let s := r.1
      let c := r.2.1
      let d := r.2.2
      (c / d, -kc * s / d, kc / d)
    else if ux < k2 then
      let r := scd2 (k2 - ux) mc
      (r.1, -r.2.1, r.2.2)
    else if ux < kh5 then
      let r := scd2 (ux - k2) mc
      (-r.1, -r.2.1, r.2.2)
    else if ux < k3 then
      let r := scd2 (k3 - ux) mc
      let s := r.1
      let c := r.2.1
      let d := r.2.2
      (-c / d, -kc * s / d, kc / d)
    else if ux < kh7 then
      let r := scd2 (ux - k3) mc
      let s := r.1
      let c := r.2.1
      let d := r.2.2
      (-c / d, kc * s / d, kc / d)
    else
      let r := scd2 (k4 - ux) mc
      (-r.1, r.2.1, r.2.2)

/-- `Gscd` from `numerics/elliptic_functions.cpp`: Jacobi `(sn, cn, dn)` for an
arbitrary real argument `u` and `mc ∈ (0, 1]`.  The whole computation runs on
`ux = |u|`; the final statement restores the sign: `if (u < 0.0) { s = -s }`. -/
noncomputable def Gscd (u mc : ℝ) : ℝ × ℝ × ℝ :=
  let r := gscdCore |u| mc
  (if u < 0 then -r.1 else r.1, r.2.1, r.2.2)

/-! ### Helper lemmas -/

/-- `artanh` is odd. -/
theorem artanh_neg (x : ℝ) : artanh (-x) = -artanh x := by
  unfold artanh
  have h : (1 + -x) / (1 - -x) = ((1 + x) / (1 - x))⁻¹ := by
    rw [inv_div]; ring_nf
  rw [h, Real.log_inv]; ring

/-- `FukushimaEllipticBsDsJs` at `s₀ = 0`: the forward loop runs zero times
(`y₀ = 0 < yB`) and every output carries the factor `s₀ = 0`. -/
theorem bsdsjs_at_zero (n mc : ℝ) : FukushimaEllipticBsDsJs 0 n mc = .ok (0, 0, 0) := by
  unfold FukushimaEllipticBsDsJs bsdsjsRec bsdsjsBase
  norm_num

/-! ### Claims -/

set_option maxHeartbeats 2000000 in
/-- `FukushimaT` written without the `let` bindings of the definition (pure
zeta reduction); used to rewrite before case analysis. -/
theorem fukushimaT_eq (t h : ℝ) : FukushimaT t h =
    (if |(-h * t * t)| < 3.3306691e-16 then t
    else if |(-h * t * t)| < 2.3560805e-08 then t * fukushimaTMaclaurin 1 (-h * t * t)
    else if |(-h * t * t)| < 9.1939631e-06 then t * fukushimaTMaclaurin 2 (-h * t * t)
    else if |(-h * t * t)| < 1.7779240e-04 then t * fukushimaTMaclaurin 3 (-h * t * t)
    else if |(-h * t * t)| < 1.0407839e-03 then t * fukushimaTMaclaurin 4 (-h * t * t)
    else if |(-h * t * t)| < 3.3616998e-03 then t * fukushimaTMaclaurin 5 (-h * t * t)
    else if |(-h * t * t)| < 7.7408014e-03 then t * fukushimaTMaclaurin 6 (-h * t * t)
    else if |(-h * t * t)| < 1.4437181e-02 then t * fukushimaTMaclaurin 7 (-h * t * t)
    else if |(-h * t * t)| < 2.3407312e-02 then t * fukushimaTMaclaurin 8 (-h * t * t)
    else if |(-h * t * t)| < 3.4416203e-02 then t * fukushimaTMaclaurin 9 (-h * t * t)
    else if -h * t * t < 0 then Real.arctan (Real.sqrt h * t) / Real.sqrt h
    else if |(-h * t * t)| < 4.7138547e-02 then t * fukushimaTMaclaurin 10 (-h * t * t)
    else if |(-h * t * t)| < 6.1227405e-02 then t * fukushimaTMaclaurin 11 (-h * t * t)
    else if |(-h * t * t)| < 7.6353468e-02 then t * fukushimaTMaclaurin 12 (-h * t * t)
    else artanh (Real.sqrt (-h) * t) / Real.sqrt (-h)) := rfl


/-- Congruence for one dispatch level: if both branch values negate, the
`ite` negates. -/
theorem ite_neg_congr (c : Prop) [Decidable c] (x y x' y' : ℝ)
    (hx : x' = -x) (hy : y' = -y) :
    (if c then x' else y') = -(if c then x else y) := by
  split_ifs <;> assumption

set_option maxHeartbeats 2000000 in
/-- `FukushimaTBranch` written without the `let` bindings (pure zeta
reduction). -/
theorem fukushimaTBranch_eq (t h : ℝ) : FukushimaTBranch t h =
    (if |(-h * t * t)| < 3.3306691e-16 then TBranch.maclaurin 0
    else if |(-h * t * t)| < 2.3560805e-08 then TBranch.maclaurin 1
    else if |(-h * t * t)| < 9.1939631e-06 then TBranch.maclaurin 2
    else if |(-h * t * t)| < 1.7779240e-04 then TBranch.maclaurin 3
    else if |(-h * t * t)| < 1.0407839e-03 then TBranch.maclaurin 4
    else if |(-h * t * t)| < 3.3616998e-03 then TBranch.maclaurin 5
    else if |(-h * t * t)| < 7.7408014e-03 then TBranch.maclaurin 6
    else if |(-h * t * t)| < 1.4437181e-02 then TBranch.maclaurin 7
    else if |(-h * t * t)| < 2.3407312e-02 then TBranch.maclaurin 8
    else if |(-h * t * t)| < 3.4416203e-02 then TBranch.maclaurin 9
    else if -h * t * t < 0 then TBranch.arctanForm
    else if |(-h * t * t)| < 4.7138547e-02 then TBranch.maclaurin 10
    else if |(-h * t * t)| < 6.1227405e-02 then TBranch.maclaurin 11
    else if |(-h * t * t)| < 7.6353468e-02 then TBranch.maclaurin 12
    else TBranch.artanhForm) := rfl

set_option maxHeartbeats 1000000 in
/-- C10: `FukushimaT` is an odd function of its first argument:
`FukushimaT (-t) h = -FukushimaT t h` for all real `t`, `h`; the dispatch value
`z = -h·t²` is invariant under `t ↦ -t` and every branch is odd in `t`. -/
theorem fukushimaT_odd (t h : ℝ) : FukushimaT (-t) h = -FukushimaT t h := by
  rw [fukushimaT_eq, fukushimaT_eq]
  rw [show -h * -t * -t = -h * t * t from by ring]
  refine ite_neg_congr _ _ _ _ _ (by ring) ?_
  refine ite_neg_congr _ _ _ _ _ (by ring) ?_
  refine ite_neg_congr _ _ _ _ _ (by ring) ?_
  refine ite_neg_congr _ _ _ _ _ (by ring) ?_
  refine ite_neg_congr _ _ _ _ _ (by ring) ?_
  refine ite_neg_congr _ _ _ _ _ (by ring) ?_
  refine ite_neg_congr _ _ _ _ _ (by ring) ?_
  refine ite_neg_congr _ _ _ _ _ (by ring) ?_
  refine ite_neg_congr _ _ _ _ _ (by ring) ?_
  refine ite_neg_congr _ _ _ _ _ (by ring) ?_
  refine ite_neg_congr _ _ _ _ _
    (by rw [mul_neg, Real.arctan_neg, neg_div]) ?_
  refine ite_neg_congr _ _ _ _ _ (by ring) ?_
  refine ite_neg_congr _ _ _ _ _ (by ring) ?_
  refine ite_neg_congr _ _ _ _ _ (by ring)
    (by rw [mul_neg, artanh_neg, neg_div])

/-- C9: `FukushimaEllipticBsDsJs(s₀ = 0, n, mc) = (0, 0, 0)` for every `n` and
`mc`: `y₀ = 0` is below `yB`, so the transformation loop runs zero times, and
`b`, `d`, `j` are all multiplied by `s₀ = 0`. -/
theorem bsdsjs_zero (n mc : ℝ) : FukushimaEllipticBsDsJs 0 n mc = .ok (0, 0, 0) :=
  bsdsjs_at_zero n mc

/-- C3: the small-parameter branches of `EllipticK`: `|1 - mc| < 1e-16` gives
exactly `π/2`; `mc` below `1.11e-16` gives the closed form
`1.3862943611198906 - ln(mc)/2`, with `mc` floored at `TINY = 1e-99`. -/
theorem ellipticK_small_branches (mc : ℝ) :
    (|1 - mc| < 1.0e-16 → EllipticK mc = Real.pi / 2) ∧
    (mc < 1.0e-99 → EllipticK mc = 1.3862943611198906 - 0.5 * Real.log 1.0e-99) ∧
    (1.0e-99 ≤ mc → mc < 1.11e-16 →
      EllipticK mc = 1.3862943611198906 - 0.5 * Real.log mc) := by
  refine ⟨fun h1 => ?_, fun h2 => ?_, fun h3 h4 => ?_⟩
  · unfold EllipticK
    rw [if_pos (by norm_num at h1 ⊢; exact h1)]
  · unfold EllipticK
    have hm : ¬|1.0 - mc| < 1.0e-16 := by
      rw [abs_of_pos (by norm_num; linarith)]
      norm_num; linarith
    rw [if_neg hm, if_pos h2]
  · unfold EllipticK
    have hm : ¬|1.0 - mc| < 1.0e-16 := by
      rw [abs_of_pos (by norm_num; linarith)]
      norm_num; linarith
    rw [if_neg hm, if_neg (by norm_num; linarith), if_pos h4]

/-- Witness for C3 at `mc = 1` and `mc = 1e-100`. -/
theorem ellipticK_small_branches_witness :
    (|1 - (1 : ℝ)| < 1.0e-16 ∧ EllipticK 1 = Real.pi / 2) ∧
    ((1e-100 : ℝ) < 1.0e-99 ∧
      EllipticK 1e-100 = 1.3862943611198906 - 0.5 * Real.log 1.0e-99) :=
  ⟨⟨by norm_num, (ellipticK_small_branches 1).1 (by norm_num)⟩,
   ⟨by norm_num, (ellipticK_small_branches 1e-100).2.1 (by norm_num)⟩⟩

/-- `celBody` only depends on `|kc₀|`. -/
theorem celBody_abs (kc nc a b : ℝ) : celBody |kc| nc a b = celBody kc nc a b := by
  unfold celBody
  rw [abs_abs]

/-- C1: the `kc = 0` handling of `BulirschCel`: with `b ≠ 0` the result is the
quiet NaN (`.error .nan`) — the source never throws; with `b = 0` the call
computes exactly as with `kc = 1e-14` substituted; and for `kc ≠ 0` it
computes exactly as with `|kc|`. -/
theorem bulirschCel_kc_zero (kc nc a b : ℝ) :
    (kc = 0 → b ≠ 0 → BulirschCel kc nc a b = .error .nan) ∧
    (kc = 0 → b = 0 → BulirschCel kc nc a b = BulirschCel 1.0e-14 nc a b) ∧
    (kc ≠ 0 → BulirschCel kc nc a b = BulirschCel |kc| nc a b) := by
  refine ⟨fun h1 h2 => ?_, fun h1 h2 => ?_, fun h1 => ?_⟩
  · unfold BulirschCel
    rw [if_pos h1, if_neg h2]
  · subst h1 h2
    unfold BulirschCel
    rw [if_pos rfl, if_pos rfl, if_neg (by norm_num)]
  · unfold BulirschCel
    rw [if_neg h1, if_neg (by simpa using h1), celBody_abs]

/-- Witness for C1 at `(kc, nc, a, b) = (0, 1, 1, 1)`, `(0, 1, 1, 0)` and
`(-2, 1, 1, 1)`. -/
theorem bulirschCel_kc_zero_witness :
    BulirschCel 0 1 1 1 = .error .nan ∧
    BulirschCel 0 1 1 0 = BulirschCel 1.0e-14 1 1 0 ∧
    BulirschCel (-2) 1 1 1 = BulirschCel |(-2 : ℝ)| 1 1 1 :=
  ⟨(bulirschCel_kc_zero 0 1 1 1).1 rfl (by norm_num),
   (bulirschCel_kc_zero 0 1 1 0).2.1 rfl rfl,
   (bulirschCel_kc_zero (-2) 1 1 1).2.2 (by norm_num)⟩

/-- C5 counterexample: at `(t, h) = (1, 1/20)` the dispatch value is
`z = -1/20`, whose absolute value `0.05` lies below the largest threshold
`7.6353468e-2`, yet `FukushimaT` takes the `z < 0` branch and returns the
`atan` closed form, not `t` times a Maclaurin polynomial: the `z < 0` test
sits before the last three threshold tests in the source. -/
theorem fukushimaT_dispatch_cex :
    |(-(1 / 20 : ℝ) * 1 * 1)| < 7.6353468e-02 ∧
    FukushimaTBranch 1 (1 / 20) = TBranch.arctanForm ∧
    FukushimaT 1 (1 / 20) =
      Real.arctan (Real.sqrt (1 / 20) * 1) / Real.sqrt (1 / 20) := by
  have hz : -(1 / 20 : ℝ) * 1 * 1 = -(1 / 20) := by norm_num
  have habs : |(-(1 / 20) : ℝ)| = 1 / 20 := by
    rw [abs_neg, abs_of_pos] <;> norm_num
  refine ⟨by rw [hz, habs]; norm_num, ?_, ?_⟩
  · rw [fukushimaTBranch_eq]
    rw [hz, habs]
    rw [if_neg (by norm_num), if_neg (by norm_num), if_neg (by norm_num),
      if_neg (by norm_num), if_neg (by norm_num), if_neg (by norm_num),
      if_neg (by norm_num), if_neg (by norm_num), if_neg (by norm_num),
      if_neg (by norm_num), if_pos (by norm_num)]
  · rw [fukushimaT_eq]
    rw [hz, habs]
    rw [if_neg (by norm_num), if_neg (by norm_num), if_neg (by norm_num),
      if_neg (by norm_num), if_neg (by norm_num), if_neg (by norm_num),
      if_neg (by norm_num), if_neg (by norm_num), if_neg (by norm_num),
      if_neg (by norm_num), if_pos (by norm_num)]

/-- C5 amended: the dispatch of `FukushimaT` on `z = -h·t²`.  Below the first
ten increasing thresholds the result is `t` times the Maclaurin polynomial
selected by the first threshold exceeding `|z|`; once `|z| ≥ 3.4416203e-2`, a
negative `z` (that is, `h > 0`) always takes the `atan` closed form, and the
last three thresholds select the degree-10..12 polynomials only for `z ≥ 0`,
above which the `atanh` closed form is used. -/
theorem fukushimaT_dispatch (t h : ℝ) :
    (|(-h * t * t)| < 3.3306691e-16 → FukushimaT t h = t) ∧
    (3.3306691e-16 ≤ |(-h * t * t)| → |(-h * t * t)| < 2.3560805e-08 →
      FukushimaT t h = t * fukushimaTMaclaurin 1 (-h * t * t)) ∧
    (2.3560805e-08 ≤ |(-h * t * t)| → |(-h * t * t)| < 9.1939631e-06 →
      FukushimaT t h = t * fukushimaTMaclaurin 2 (-h * t * t)) ∧
    (9.1939631e-06 ≤ |(-h * t * t)| → |(-h * t * t)| < 1.7779240e-04 →
      FukushimaT t h = t * fukushimaTMaclaurin 3 (-h * t * t)) ∧
    (1.7779240e-04 ≤ |(-h * t * t)| → |(-h * t * t)| < 1.0407839e-03 →
      FukushimaT t h = t * fukushimaTMaclaurin 4 (-h * t * t)) ∧
    (1.0407839e-03 ≤ |(-h * t * t)| → |(-h * t * t)| < 3.3616998e-03 →
      FukushimaT t h = t * fukushimaTMaclaurin 5 (-h * t * t)) ∧
    (3.3616998e-03 ≤ |(-h * t * t)| → |(-h * t * t)| < 7.7408014e-03 →
      FukushimaT t h = t * fukushimaTMaclaurin 6 (-h * t * t)) ∧
    (7.7408014e-03 ≤ |(-h * t * t)| → |(-h * t * t)| < 1.4437181e-02 →
      FukushimaT t h = t * fukushimaTMaclaurin 7 (-h * t * t)) ∧
    (1.4437181e-02 ≤ |(-h * t * t)| → |(-h * t * t)| < 2.3407312e-02 →
      FukushimaT t h = t * fukushimaTMaclaurin 8 (-h * t * t)) ∧
    (2.3407312e-02 ≤ |(-h * t * t)| → |(-h * t * t)| < 3.4416203e-02 →
      FukushimaT t h = t * fukushimaTMaclaurin 9 (-h * t * t)) ∧
    (3.4416203e-02 ≤ |(-h * t * t)| → -h * t * t < 0 →
      FukushimaT t h = Real.arctan (Real.sqrt h * t) / Real.sqrt h) ∧
    (0 ≤ -h * t * t → 3.4416203e-02 ≤ |(-h * t * t)| →
      |(-h * t * t)| < 4.7138547e-02 →
      FukushimaT t h = t * fukushimaTMaclaurin 10 (-h * t * t)) ∧
    (0 ≤ -h * t * t → 4.7138547e-02 ≤ |(-h * t * t)| →
      |(-h * t * t)| < 6.1227405e-02 →
      FukushimaT t h = t * fukushimaTMaclaurin 11 (-h * t * t)) ∧
    (0 ≤ -h * t * t → 6.1227405e-02 ≤ |(-h * t * t)| →
      |(-h * t * t)| < 7.6353468e-02 →
      FukushimaT t h = t * fukushimaTMaclaurin 12 (-h * t * t)) ∧
    (0 ≤ -h * t * t → 7.6353468e-02 ≤ |(-h * t * t)| →
      FukushimaT t h = artanh (Real.sqrt (-h) * t) / Real.sqrt (-h)) := by
  refine ⟨fun u1 => ?_, fun l1 u2 => ?_, fun l2 u3 => ?_, fun l3 u4 => ?_,
    fun l4 u5 => ?_, fun l5 u6 => ?_, fun l6 u7 => ?_, fun l7 u8 => ?_,
    fun l8 u9 => ?_, fun l9 u10 => ?_, fun l10 hneg => ?_,
    fun hpos l10 u11 => ?_, fun hpos l11 u12 => ?_, fun hpos l12 u13 => ?_,
    fun hpos l13 => ?_⟩ <;>
  rw [fukushimaT_eq]
  · rw [if_pos u1]
  · rw [if_neg (by linarith), if_pos u2]
  · rw [if_neg (by linarith), if_neg (by linarith), if_pos u3]
  · rw [if_neg (by linarith), if_neg (by linarith), if_neg (by linarith),
      if_pos u4]
  · rw [if_neg (by linarith), if_neg (by linarith), if_neg (by linarith),
      if_neg (by linarith), if_pos u5]
  · rw [if_neg (by linarith), if_neg (by linarith), if_neg (by linarith),
      if_neg (by linarith), if_neg (by linarith), if_pos u6]
  · rw [if_neg (by linarith), if_neg (by linarith), if_neg (by linarith),
      if_neg (by linarith), if_neg (by linarith), if_neg (by linarith),
      if_pos u7]
  · rw [if_neg (by linarith), if_neg (by linarith), if_neg (by linarith),
      if_neg (by linarith), if_neg (by linarith), if_neg (by linarith),
      if_neg (by linarith), if_pos u8]
  · rw [if_neg (by linarith), if_neg (by linarith), if_neg (by linarith),
      if_neg (by linarith), if_neg (by linarith), if_neg (by linarith),
      if_neg (by linarith), if_neg (by linarith), if_pos u9]
  · rw [if_neg (by linarith), if_neg (by linarith), if_neg (by linarith),
      if_neg (by linarith), if_neg (by linarith), if_neg (by linarith),
      if_neg (by linarith), if_neg (by linarith), if_neg (by linarith),
      if_pos u10]
  · rw [if_neg (by linarith), if_neg (by linarith), if_neg (by linarith),
      if_neg (by linarith), if_neg (by linarith), if_neg (by linarith),
      if_neg (by linarith), if_neg (by linarith), if_neg (by linarith),
      if_neg (by linarith), if_pos hneg]
  · rw [if_neg (by linarith), if_neg (by linarith), if_neg (by linarith),
      if_neg (by linarith), if_neg (by linarith), if_neg (by linarith),
      if_neg (by linarith), if_neg (by linarith), if_neg (by linarith),
      if_neg (by linarith), if_neg (by linarith), if_pos u11]
  · rw [if_neg (by linarith), if_neg (by linarith), if_neg (by linarith),
      if_neg (by linarith), if_neg (by linarith), if_neg (by linarith),
      if_neg (by linarith), if_neg (by linarith), if_neg (by linarith),
      if_neg (by linarith), if_neg (by linarith), if_neg (by linarith),
      if_pos u12]
  · rw [if_neg (by linarith), if_neg (by linarith), if_neg (by linarith),
      if_neg (by linarith), if_neg (by linarith), if_neg (by linarith),
      if_neg (by linarith), if_neg (by linarith), if_neg (by linarith),
      if_neg (by linarith), if_neg (by linarith), if_neg (by linarith),
      if_neg (by linarith), if_pos u13]
  · rw [if_neg (by linarith), if_neg (by linarith), if_neg (by linarith),
      if_neg (by linarith), if_neg (by linarith), if_neg (by linarith),
      if_neg (by linarith), if_neg (by linarith), if_neg (by linarith),
      if_neg (by linarith), if_neg (by linarith), if_neg (by linarith),
      if_neg (by linarith), if_neg (by linarith)]

/-- Witness for the amended C5 at `(t, h) = (1, 1/10)`: `z = -1/10` with
`|z| ≥ 3.4416203e-2` and `z < 0`, so the result is the `atan` closed form. -/
theorem fukushimaT_dispatch_witness :
    (3.4416203e-02 ≤ |(-(1 / 10 : ℝ) * 1 * 1)| ∧ -(1 / 10 : ℝ) * 1 * 1 < 0) ∧
    FukushimaT 1 (1 / 10) =
      Real.arctan (Real.sqrt (1 / 10) * 1) / Real.sqrt (1 / 10) := by
  have habs : |(-(1 / 10 : ℝ) * 1 * 1)| = 1 / 10 := by
    rw [show -(1 / 10 : ℝ) * 1 * 1 = -(1 / 10) by norm_num, abs_neg,
      abs_of_pos] <;> norm_num
  exact ⟨⟨by rw [habs]; norm_num, by norm_num⟩,
    (fukushimaT_dispatch 1 (1 / 10)).2.2.2.2.2.2.2.2.2.2.1
      (by rw [habs]; norm_num) (by norm_num)⟩

/-- `Gscd` without the `let` (pure zeta reduction). -/
theorem gscd_eq (u mc : ℝ) : Gscd u mc =
    (if u < 0 then -(gscdCore |u| mc).1 else (gscdCore |u| mc).1,
     (gscdCore |u| mc).2.1, (gscdCore |u| mc).2.2) := rfl

/-- Below `0.785` the octant machinery of `gscdCore` is bypassed. -/
theorem gscdCore_small (ux mc : ℝ) (h : ux < 0.785) :
    gscdCore ux mc = scd2 ux mc := by
  simp only [gscdCore]
  rw [if_pos h]

/-- The halving loop exits immediately when the argument is already below
`uT`. -/
theorem scd2Halve_lt (uT u0 : ℝ) (fuel : ℕ) (h : u0 < uT) :
    scd2Halve uT u0 (fuel + 1) = (0, u0) := by
  unfold scd2Halve
  rw [if_pos h]

/-- `scd2` at `u = 0`: no halvings, `b = 0`, zero duplication steps, and the
terminal step yields `(s, c, d) = (0, 1, 1)`. -/
theorem scd2_zero (mc : ℝ) (h1 : 0 < mc) : scd2 0 mc = (0, 1, 1) := by
  simp only [scd2]
  rw [show (21 : ℕ) = 20 + 1 from rfl,
    scd2Halve_lt _ _ _ (by norm_num; linarith)]
  rw [if_pos (show (0 : ℝ) < 1.76269 + mc * 1.16357 by linarith)]
  simp only [scd2DupIter, scd2Finish]
  norm_num

/-- C4: parity of `Gscd`: for every real `u` and `mc ∈ (0, 1]`, if
`Gscd u mc = (s, c, d)` then `Gscd (-u) mc = (-s, c, d)`.  The computation
depends on `u` only through `|u|`, followed by the final sign restoration
`s(-u) = -s(u)`; at `u = 0` the `s` component is `0`. -/
theorem gscd_parity (u mc : ℝ) (h1 : 0 < mc) (h2 : mc ≤ 1) :
    Gscd (-u) mc =
      (-(Gscd u mc).1, (Gscd u mc).2.1, (Gscd u mc).2.2) := by
  rw [gscd_eq, gscd_eq, abs_neg]
  rcases lt_trichotomy u 0 with hu | hu | hu
  · rw [if_pos hu, if_neg (by linarith), neg_neg]
  · subst hu
    rw [neg_zero, if_neg (lt_irrefl 0)]
    have h0 : (gscdCore |(0 : ℝ)| mc).1 = 0 := by
      rw [abs_zero, gscdCore_small 0 mc (by norm_num), scd2_zero mc h1]
    rw [h0, neg_zero]
  · rw [if_pos (show -u < 0 by linarith), if_neg (not_lt.mpr (le_of_lt hu))]

/-- Witness for C4 at `u = 1`, `mc = 1`. -/
theorem gscd_parity_witness :
    (0 : ℝ) < 1 ∧ (1 : ℝ) ≤ 1 ∧
    Gscd (-1) 1 = (-(Gscd 1 1).1, (Gscd 1 1).2.1, (Gscd 1 1).2.2) :=
  ⟨by norm_num, le_refl 1, gscd_parity 1 1 (by norm_num) (le_refl 1)⟩

/-- The `m ≤ 0.5` minimax branch of `elk0`, written out: for
`0.4 < 1 - mc ≤ 0.5` the result is the branch polynomial evaluated at
`mx = (1 - mc) - 0.45`. -/
theorem elk0_branch_half (mc : ℝ) (hl : 0.4 < 1.0 - mc) (hu : 1.0 - mc ≤ 0.5) :
    elk0 mc =
    (1.813883936816982644 + ((1.0 - mc) - 0.45) * (
      0.763163245700557246 + ((1.0 - mc) - 0.45) * (
      0.761928605321595831 + ((1.0 - mc) - 0.45) * (
      0.951074653668427927 + ((1.0 - mc) - 0.45) * (
      1.315180671703161215 + ((1.0 - mc) - 0.45) * (
      1.928560693477410941 + ((1.0 - mc) - 0.45) * (
      2.937509342531378755 + ((1.0 - mc) - 0.45) * (
      4.594894405442878062 + ((1.0 - mc) - 0.45) * (
      7.330071221881720772 + ((1.0 - mc) - 0.45) * (
      11.87151259742530180 + ((1.0 - mc) - 0.45) * (
      19.45851374822937738 + ((1.0 - mc) - 0.45) * (
      32.20638657246426863 + ((1.0 - mc) - 0.45) * (
      53.73749198700554656 + ((1.0 - mc) - 0.45) * (
      90.27388602940998849)))))))))))))) := by
  have hmc : mc ≥ 0.5 := by linarith
  simp only [elk0]
  rw [if_neg (by rw [abs_of_pos (by linarith : (0:ℝ) < 1.0 - mc)]; norm_num; linarith),
    if_neg (by norm_num; linarith), if_neg (by norm_num; linarith),
    if_neg (by norm_num; linarith), if_neg (by norm_num; linarith),
    if_neg (by norm_num; linarith), if_neg (by norm_num; linarith),
    if_neg (by norm_num; linarith), if_pos hu]

/-- The two minimax values used by the C7 counterexample differ:
`elk0 (1/2) ≠ elk0 (1/2 + 1e-17)`. -/
theorem elk0_half_ne : elk0 (1 / 2) ≠ elk0 (1 / 2 + 1e-17) := by
  rw [elk0_branch_half (1 / 2) (by norm_num) (by norm_num),
    elk0_branch_half (1 / 2 + 1e-17) (by norm_num) (by norm_num)]
  norm_num

/-- The new state after any `elk_call` is the argument paired with the
result. -/
theorem elk_call_snd (st : ℝ × ℝ) (mc : ℝ) :
    (elk_call st mc).2 = (mc, (elk_call st mc).1) := by
  simp only [elk_call]
  split_ifs <;> rfl

/-- C7 counterexample: `elk` is not stateless.  Starting from the initial
state `(mcold, elkold) = (1, π/2)`, first calling `elk` at `mc = 1/2` and then
at `mc = 1/2 + 1e-17` returns the cached `elk0 (1/2)` (the cache test
`|mc - mcold| < 1.11e-16·mc` passes), whereas calling directly at
`mc = 1/2 + 1e-17` returns `elk0 (1/2 + 1e-17)`; the two results differ, so
identical arguments give different results depending on earlier calls. -/
theorem elk_call_not_stateless :
    (elk_call (elk_call (1, Real.pi / 2) (1 / 2)).2 (1 / 2 + 1e-17)).1 ≠
    (elk_call (1, Real.pi / 2) (1 / 2 + 1e-17)).1 := by
  have habs1 : |(1.0 : ℝ) - 1 / 2| = 1 / 2 := by
    rw [abs_of_pos] <;> norm_num
  have habs2 : |(1.0 : ℝ) - (1 / 2 + 1e-17)| = 1 / 2 - 1e-17 := by
    rw [abs_of_pos] <;> norm_num
  have hc1 : ¬|(1 / 2 : ℝ) - 1| < 1.11e-16 * (1 / 2) := by
    rw [abs_of_neg] <;> norm_num
  have hfirst : elk_call (1, Real.pi / 2) (1 / 2) = (elk0 (1 / 2), (1 / 2, elk0 (1 / 2))) := by
    simp only [elk_call]
    rw [if_neg (by rw [habs1]; norm_num), if_neg hc1]
  rw [hfirst]
  have hsecond :
      (elk_call ((1 / 2 : ℝ), elk0 (1 / 2)) (1 / 2 + 1e-17)).1 = elk0 (1 / 2) := by
    simp only [elk_call]
    rw [if_neg (by rw [habs2]; norm_num),
      if_pos (by rw [show (1 / 2 + 1e-17 : ℝ) - 1 / 2 = 1e-17 by norm_num,
        abs_of_pos] <;> norm_num)]
  have hdirect :
      (elk_call ((1 : ℝ), Real.pi / 2) (1 / 2 + 1e-17)).1 = elk0 (1 / 2 + 1e-17) := by
    simp only [elk_call]
    rw [if_neg (by rw [habs2]; norm_num),
      if_neg (by rw [show (1 / 2 + 1e-17 : ℝ) - 1 = -(1 / 2 - 1e-17) by norm_num,
        abs_neg, abs_of_pos] <;> norm_num)]
  rw [hsecond, hdirect]
  exact elk0_half_ne

/-- C7 amended: the functions of the core are deterministic once the `elk`
cache state is explicit, and repeating a call with the identical argument from
the state the first call left behind returns the identical result; but, as the
counterexample shows, a call whose argument is merely within relative
`1.11e-16` of the previous one returns the previous (stale) result, so `elk`
itself is not stateless. -/
theorem elk_call_stable (st : ℝ × ℝ) (mc : ℝ) (h : 0 < mc) :
    (elk_call (elk_call st mc).2 mc).1 = (elk_call st mc).1 := by
  rw [elk_call_snd]
  by_cases h1 : |1.0 - mc| < 1.0e-16
  · simp only [elk_call]
    rw [if_pos h1, if_pos h1]
  · conv_lhs => rw [elk_call]
    rw [if_neg h1, if_pos (by rw [sub_self, abs_zero]; positivity)]

/-- Witness for the amended C7 at `st = (1, π/2)`, `mc = 1/2`. -/
theorem elk_call_stable_witness :
    (0 : ℝ) < 1 / 2 ∧
    (elk_call (elk_call (1, Real.pi / 2) (1 / 2)).2 (1 / 2)).1 =
      (elk_call (1, Real.pi / 2) (1 / 2)).1 :=
  ⟨by norm_num, elk_call_stable (1, Real.pi / 2) (1 / 2) (by norm_num)⟩

/-- At `y = 1` with `m = 1` the half-argument transformation is a fixed point
(`c = d = 0`, so `y` is unchanged), and the level budget is necessarily
exhausted. -/
theorem bsdsjsRec_one_fixed (h : ℝ) :
    ∀ fuel : ℕ, bsdsjsRec 0 1 h fuel 1 1 = .error .outOfFuel := by
  intro fuel
  induction fuel with
  | zero =>
    unfold bsdsjsRec
    rw [if_neg (by norm_num)]
  | succ f ih =>
    simp only [bsdsjsRec]
    rw [if_neg (by norm_num)]
    norm_num [Real.sqrt_one, ih]

/-- C8 counterexample: at the in-domain input `s₀ = 1` (that is `φ = π/2`),
`n = 0`, `mc = 0`, the forward half-argument loop of
`FukushimaEllipticBsDsJs` never leaves `y = 1`, exceeds the 10-level bound,
and reaches the level-bound error branch. -/
theorem bsdsjs_level_bound_cex :
    ((0 : ℝ) ≤ 1 ∧ (1 : ℝ) ≤ 1 ∧ (0 : ℝ) ≤ 0 ∧ (0 : ℝ) ≤ 1) ∧
    FukushimaEllipticBsDsJs 1 0 0 = .error .outOfFuel := by
  refine ⟨⟨by norm_num, le_refl 1, le_refl 0, by norm_num⟩, ?_⟩
  show bsdsjsRec 0 (1.0 - 0) (0 * (1.0 - 0) * (0 - (1.0 - 0))) 10 1 (1 * 1)
    = .error .outOfFuel
  norm_num
  exact bsdsjsRec_one_fixed _ 10

/-- Sufficient condition for the sine-entry forward loop to stay within its
level budget: if `m ≤ 1` and `y₀ ≤ 0.9·(10/17)^(10-f)`, the recursion with
fuel `f` succeeds.  Each executed level has `y ≤ 0.9`, hence
`c = √(1-y) ≥ 3/10` and `d ≥ c`, so `y` shrinks at least by the factor
`10/17`, and `0.9·(10/17)^10 < yB = 0.01622`. -/
theorem bsdsjsRec_ok (n m h : ℝ) (hm : m ≤ 1) :
    ∀ f : ℕ, ∀ s₀ y₀ : ℝ, 0 ≤ y₀ → y₀ ≤ 0.9 * (10 / 17 : ℝ) ^ (10 - f) →
      ∃ v, bsdsjsRec n m h f s₀ y₀ = .ok v := by
  intro f
  induction f with
  | zero =>
    intro s₀ y₀ hy0 hyb
    refine ⟨bsdsjsBase n m s₀ y₀, ?_⟩
    unfold bsdsjsRec
    rw [if_pos (by norm_num at hyb; linarith)]
  | succ f ih =>
    intro s₀ y₀ hy0 hyb
    by_cases hyB : y₀ < 0.01622
    · exact ⟨bsdsjsBase n m s₀ y₀, by unfold bsdsjsRec; rw [if_pos hyB]⟩
    · push_neg at hyB
      have hpw0 : (0 : ℝ) ≤ (10 / 17 : ℝ) ^ (10 - (f + 1)) :=
        pow_nonneg (by norm_num) _
      have hpw1 : (10 / 17 : ℝ) ^ (10 - (f + 1)) ≤ 1 :=
        pow_le_one₀ (by norm_num) (by norm_num)
      have hy09 : y₀ ≤ 0.9 := by nlinarith
      have hc0 : 0 ≤ Real.sqrt (1.0 - y₀) := Real.sqrt_nonneg _
      have hcsq : Real.sqrt (1.0 - y₀) ^ 2 = 1.0 - y₀ :=
        Real.sq_sqrt (by linarith)
      have hc3 : 3 / 10 ≤ Real.sqrt (1.0 - y₀) := by nlinarith
      have hdc : Real.sqrt (1.0 - y₀) ≤ Real.sqrt (1.0 - m * y₀) :=
        Real.sqrt_le_sqrt (by nlinarith)
      have hdenom : 17 / 10 ≤
          (1.0 + Real.sqrt (1.0 - y₀)) * (1.0 + Real.sqrt (1.0 - m * y₀)) := by
        nlinarith
      have hdenom0 : 0 <
          (1.0 + Real.sqrt (1.0 - y₀)) * (1.0 + Real.sqrt (1.0 - m * y₀)) := by
        nlinarith
      have hy1 : y₀ / ((1.0 + Real.sqrt (1.0 - y₀)) * (1.0 + Real.sqrt (1.0 - m * y₀)))
          ≤ y₀ * (10 / 17) := by
        rw [div_le_iff hdenom0]
        nlinarith
      have hle : 10 - f ≤ (10 - (f + 1)) + 1 := by omega
      have hmono : (10 / 17 : ℝ) ^ ((10 - (f + 1)) + 1) ≤ (10 / 17 : ℝ) ^ (10 - f) :=
        pow_le_pow_of_le_one (by norm_num) (by norm_num) hle
      have hy1b : y₀ / ((1.0 + Real.sqrt (1.0 - y₀)) * (1.0 + Real.sqrt (1.0 - m * y₀)))
          ≤ 0.9 * (10 / 17 : ℝ) ^ (10 - f) := by
        calc y₀ / ((1.0 + Real.sqrt (1.0 - y₀)) * (1.0 + Real.sqrt (1.0 - m * y₀)))
            ≤ y₀ * (10 / 17) := hy1
          _ ≤ 0.9 * (10 / 17 : ℝ) ^ (10 - (f + 1)) * (10 / 17) := by nlinarith
          _ = 0.9 * (10 / 17 : ℝ) ^ ((10 - (f + 1)) + 1) := by rw [pow_succ]; ring
          _ ≤ 0.9 * (10 / 17 : ℝ) ^ (10 - f) := by nlinarith
      have hy10 : 0 ≤ y₀ /
          ((1.0 + Real.sqrt (1.0 - y₀)) * (1.0 + Real.sqrt (1.0 - m * y₀))) :=
        div_nonneg hy0 (le_of_lt hdenom0)
      obtain ⟨v, hv⟩ := ih
        (Real.sqrt (y₀ / ((1.0 + Real.sqrt (1.0 - y₀)) * (1.0 + Real.sqrt (1.0 - m * y₀)))))
        (y₀ / ((1.0 + Real.sqrt (1.0 - y₀)) * (1.0 + Real.sqrt (1.0 - m * y₀))))
        hy10 hy1b
      simp only [bsdsjsRec, if_neg (not_lt.mpr hyB), hv]
      exact ⟨_, rfl⟩

/-- Sine-entry wrapper of the budget bound: `s₀² ≤ 0.9` and `0 ≤ mc` give a
successful computation. -/
theorem bsdsjs_ok (s₀ n mc : ℝ) (h9 : s₀ * s₀ ≤ 0.9) (hmc : 0 ≤ mc) :
    ∃ v, FukushimaEllipticBsDsJs s₀ n mc = .ok v := by
  show ∃ v, bsdsjsRec n (1.0 - mc) (n * (1.0 - n) * (n - (1.0 - mc))) 10 s₀ (s₀ * s₀)
    = .ok v
  refine bsdsjsRec_ok n (1.0 - mc) _ (by linarith) 10 s₀ (s₀ * s₀)
    (mul_self_nonneg s₀) ?_
  norm_num at h9 ⊢
  exact h9

/-- The cosine-entry forward loop exits as soon as `x > xS = 0.1`, switching
to the sine entry on `√(1 - x)`, whatever fuel remains. -/
theorem bcdcjcRec_exit (n mc m h : ℝ) (fuel : ℕ) (c x : ℝ) (hx : 0.1 < x) :
    bcdcjcRec n mc m h fuel c x =
      FukushimaEllipticBsDsJs (Real.sqrt (1.0 - x)) n mc := by
  cases fuel with
  | zero => simp only [bcdcjcRec, if_pos hx]
  | succ f => simp only [bcdcjcRec, if_pos hx]

/-- Cosine-entry budget bound: for `0 ≤ c₀ ≤ 1` and `mc ≥ 1/4` the forward
loop of `FukushimaEllipticBcDcJc` exits after at most one transformation
(`d₀ ≥ 1/2` forces `x₁ > 1/3 > xS`), and the subsequent sine entry starts at
`y ≤ 0.9`. -/
theorem bcdcjc_ok (c₀ n mc : ℝ) (hc0 : 0 ≤ c₀) (hc1 : c₀ ≤ 1)
    (hmc : 0.25 ≤ mc) (hmc1 : mc ≤ 1) :
    ∃ v, FukushimaEllipticBcDcJc c₀ n mc = .ok v := by
  show ∃ v, bcdcjcRec n mc (1.0 - mc) (n * (1.0 - n) * (n - (1.0 - mc))) (9 + 1) c₀ (c₀ * c₀)
    = .ok v
  have hx0 : 0 ≤ c₀ * c₀ := mul_self_nonneg c₀
  have hx1 : c₀ * c₀ ≤ 1 := by nlinarith
  by_cases hbig : 0.1 < c₀ * c₀
  · rw [bcdcjcRec_exit n mc (1.0 - mc) (n * (1.0 - n) * (n - (1.0 - mc))) (9 + 1)
      c₀ (c₀ * c₀) hbig]
    have hsq : Real.sqrt (1.0 - c₀ * c₀) * Real.sqrt (1.0 - c₀ * c₀)
        = 1.0 - c₀ * c₀ := Real.mul_self_sqrt (by linarith)
    show ∃ v, bsdsjsRec n (1.0 - mc) (n * (1.0 - n) * (n - (1.0 - mc))) 10
      (Real.sqrt (1.0 - c₀ * c₀)) (Real.sqrt (1.0 - c₀ * c₀) * Real.sqrt (1.0 - c₀ * c₀))
      = .ok v
    exact bsdsjsRec_ok n (1.0 - mc) (n * (1.0 - n) * (n - (1.0 - mc)))
      (by linarith) 10 (Real.sqrt (1.0 - c₀ * c₀))
      (Real.sqrt (1.0 - c₀ * c₀) * Real.sqrt (1.0 - c₀ * c₀))
      (mul_self_nonneg _) (by rw [hsq]; norm_num; linarith)
  · push_neg at hbig
    have hd0 : 0 ≤ Real.sqrt (mc + (1.0 - mc) * (c₀ * c₀)) := Real.sqrt_nonneg _
    have hdsq : Real.sqrt (mc + (1.0 - mc) * (c₀ * c₀)) ^ 2
        = mc + (1.0 - mc) * (c₀ * c₀) := Real.sq_sqrt (by nlinarith)
    have hdhalf : 1 / 2 ≤ Real.sqrt (mc + (1.0 - mc) * (c₀ * c₀)) := by nlinarith
    have hden0 : 0 < 1.0 + Real.sqrt (mc + (1.0 - mc) * (c₀ * c₀)) := by linarith
    have hx1big : 0.1 <
        (c₀ + Real.sqrt (mc + (1.0 - mc) * (c₀ * c₀))) /
          (1.0 + Real.sqrt (mc + (1.0 - mc) * (c₀ * c₀))) := by
      rw [lt_div_iff hden0]
      nlinarith
    have hx1le : (c₀ + Real.sqrt (mc + (1.0 - mc) * (c₀ * c₀))) /
          (1.0 + Real.sqrt (mc + (1.0 - mc) * (c₀ * c₀))) ≤ 1 := by
      rw [div_le_one hden0]
      linarith
    have hy1 : (1.0 : ℝ) - (c₀ + Real.sqrt (mc + (1.0 - mc) * (c₀ * c₀))) /
          (1.0 + Real.sqrt (mc + (1.0 - mc) * (c₀ * c₀))) ≤ 0.9 := by
      nlinarith
    have hsq : Real.sqrt (1.0 - (c₀ + Real.sqrt (mc + (1.0 - mc) * (c₀ * c₀))) /
          (1.0 + Real.sqrt (mc + (1.0 - mc) * (c₀ * c₀)))) *
        Real.sqrt (1.0 - (c₀ + Real.sqrt (mc + (1.0 - mc) * (c₀ * c₀))) /
          (1.0 + Real.sqrt (mc + (1.0 - mc) * (c₀ * c₀))))
        = 1.0 - (c₀ + Real.sqrt (mc + (1.0 - mc) * (c₀ * c₀))) /
          (1.0 + Real.sqrt (mc + (1.0 - mc) * (c₀ * c₀))) :=
      Real.mul_self_sqrt (by linarith [hx1le])
    obtain ⟨⟨b, dd, j⟩, hv⟩ := bsdsjsRec_ok n (1.0 - mc)
      (n * (1.0 - n) * (n - (1.0 - mc))) (by linarith) 10
      (Real.sqrt (1.0 - (c₀ + Real.sqrt (mc + (1.0 - mc) * (c₀ * c₀))) /
        (1.0 + Real.sqrt (mc + (1.0 - mc) * (c₀ * c₀)))))
      (Real.sqrt (1.0 - (c₀ + Real.sqrt (mc + (1.0 - mc) * (c₀ * c₀))) /
        (1.0 + Real.sqrt (mc + (1.0 - mc) * (c₀ * c₀)))) *
       Real.sqrt (1.0 - (c₀ + Real.sqrt (mc + (1.0 - mc) * (c₀ * c₀))) /
        (1.0 + Real.sqrt (mc + (1.0 - mc) * (c₀ * c₀)))))
      (mul_self_nonneg _) (by rw [hsq]; norm_num; linarith [hy1])
    simp only [bcdcjcRec, if_neg (not_lt.mpr hbig), if_pos hx1big,
      FukushimaEllipticBsDsJs, hv]
    exact ⟨_, rfl⟩

/-- C8 amended: the level-bound error branch is reachable in the stated
domain (see the counterexample at `s₀ = 1`, `mc = 0`), and away from the
degenerate corner the loops do stay within the 10-level budget: the sine
entry succeeds whenever `y₀ = s₀² ≤ 0.9`, and the cosine entry succeeds for
`0 ≤ c₀ ≤ 1` whenever `mc ≥ 1/4`, the recorded levels then being indexed only
within bounds. -/
theorem forward_loops_bounded (s₀ c₀ n mc : ℝ) :
    (s₀ * s₀ ≤ 0.9 → 0 ≤ mc →
      ∃ v, FukushimaEllipticBsDsJs s₀ n mc = .ok v) ∧
    (0 ≤ c₀ → c₀ ≤ 1 → 0.25 ≤ mc → mc ≤ 1 →
      ∃ v, FukushimaEllipticBcDcJc c₀ n mc = .ok v) :=
  ⟨fun h9 hmc => bsdsjs_ok s₀ n mc h9 hmc,
   fun hc0 hc1 hmc hmc1 => bcdcjc_ok c₀ n mc hc0 hc1 hmc hmc1⟩

/-- Witness for the amended C8 at `s₀ = c₀ = 1/2`, `n = 1/2`, `mc = 1/2`. -/
theorem forward_loops_bounded_witness :
    (∃ v, FukushimaEllipticBsDsJs (1 / 2) (1 / 2) (1 / 2) = .ok v) ∧
    (∃ v, FukushimaEllipticBcDcJc (1 / 2) (1 / 2) (1 / 2) = .ok v) :=
  ⟨(forward_loops_bounded (1 / 2) (1 / 2) (1 / 2) (1 / 2)).1 (by norm_num) (by norm_num),
   (forward_loops_bounded (1 / 2) (1 / 2) (1 / 2) (1 / 2)).2 (by norm_num)
     (by norm_num) (by norm_num) (by norm_num)⟩

/-- `FukushimaT` at `t = 0` is `0`: the dispatch value is `z = 0`, below the
first threshold, and the first branch returns `t`. -/
theorem fukushimaT_zero (h : ℝ) : FukushimaT 0 h = 0 := by
  rw [fukushimaT_eq]
  rw [show -h * 0 * 0 = (0 : ℝ) from by ring, abs_zero]
  rw [if_pos (by norm_num)]

/-- The complete overload at `mc = 0`: `J = cel(√0, nc, 0, 1)` has `kc = 0`
and `b = 1 ≠ 0`, the undefined case, so the whole triple is the NaN fault. -/
theorem bdj_complete_mc_zero (nc : ℝ) :
    FukushimaEllipticBDJ nc 0 = .error .nan := by
  simp only [FukushimaEllipticBDJ, Real.sqrt_zero, BulirschCel]
  norm_num

/-- At `mc = 0` the cosine-entry transformation has the fixed point `x = 0`
(`d = √(mc + m·x) = 0`, so `x' = 0`): the loop never reaches `x > xS` and the
level budget runs out, whatever the fuel. -/
theorem bcdcjcRec_zero_fixed (n m h : ℝ) :
    ∀ fuel : ℕ, bcdcjcRec n 0 m h fuel 0 0 = .error .outOfFuel := by
  intro fuel
  induction fuel with
  | zero =>
    simp only [bcdcjcRec]
    rw [if_neg (by norm_num)]
  | succ f ih =>
    simp only [bcdcjcRec]
    rw [if_neg (by norm_num)]
    norm_num [Real.sqrt_zero, ih]

/-- `FukushimaEllipticBcDcJc(0, n, 0)` exhausts the level bound. -/
theorem bcdcjc_zero_zero (n : ℝ) :
    FukushimaEllipticBcDcJc 0 n 0 = .error .outOfFuel := by
  show bcdcjcRec n 0 (1.0 - 0) (n * (1.0 - n) * (n - (1.0 - 0))) 10 0 (0 * 0)
    = .error .outOfFuel
  rw [show (0 : ℝ) * 0 = 0 from by norm_num]
  exact bcdcjcRec_zero_fixed n (1.0 - 0) (n * (1.0 - n) * (n - (1.0 - 0))) 10

/-- The incomplete overload at `φ = π/2`, `mc = 0` lands in the
complementary-angle branch, whose cosine-entry call starts at `x = 0` with
`mc = 0` and exceeds the level bound. -/
theorem bdj_angle_mc_zero :
    FukushimaEllipticBDJAngle (Real.pi / 2) (1 / 2) 0 = .error .outOfFuel := by
  simp only [FukushimaEllipticBDJAngle]
  rw [if_neg (not_lt.mpr (by nlinarith [Real.pi_gt_d6]))]
  rw [Real.cos_pi_div_two]
  rw [if_neg (by norm_num), if_neg (by norm_num)]
  norm_num [bcdcjc_zero_zero]

/-- C6 counterexample: at `n = 1/2`, `mc = 0` (inside the claimed domain
`n ∈ [0,1]`, `mc ∈ [0,1]`), the two overloads do not agree: the incomplete
entry at `φ = π/2` fails with the level-bound fault while the complete entry
fails with the NaN fault of `cel(0, nc, 0, 1)`. -/
theorem bdj_quarter_period_cex :
    ((0 : ℝ) ≤ 1 / 2 ∧ (1 / 2 : ℝ) ≤ 1 ∧ (0 : ℝ) ≤ 0 ∧ (0 : ℝ) ≤ 1) ∧
    FukushimaEllipticBDJAngle (Real.pi / 2) (1 / 2) 0 ≠
      FukushimaEllipticBDJ (1.0 - 1 / 2) 0 := by
  refine ⟨⟨by norm_num, by norm_num, le_refl 0, by norm_num⟩, ?_⟩
  rw [bdj_angle_mc_zero, bdj_complete_mc_zero]
  simp

/-- C6 amended: for every `n ∈ [0, 1]` and `mc ∈ (0, 1]` (the claim's
`mc = 0` corner is excluded by the counterexample), the incomplete entry
point at the full quarter period agrees exactly with the complete overload:
`FukushimaEllipticBDJ(φ = π/2, n, mc) = FukushimaEllipticBDJ(nc = 1 - n, mc)`.
At `φ = π/2` the dispatch takes the first complementary branch with
`c = cos(π/2) = 0`, the sine-entry call contributes `(0, 0, 0)`, the
`FukushimaT` correction vanishes, and the complete values pass through. -/
theorem bdj_quarter_period (n mc : ℝ) (hn0 : 0 ≤ n) (hn1 : n ≤ 1)
    (hmc0 : 0 < mc) (hmc1 : mc ≤ 1) :
    FukushimaEllipticBDJAngle (Real.pi / 2) n mc =
      FukushimaEllipticBDJ (1.0 - n) mc := by
  simp only [FukushimaEllipticBDJAngle]
  rw [if_neg (not_lt.mpr (by nlinarith [Real.pi_gt_d6]))]
  rw [Real.cos_pi_div_two]
  rw [if_pos (by nlinarith)]
  rw [show (0 : ℝ) / Real.sqrt (mc + (1.0 - mc) * (0 * 0)) = 0 from zero_div _]
  rw [bsdsjs_at_zero]
  cases FukushimaEllipticBDJ (1.0 - n) mc with
  | error e => rfl
  | ok v =>
    obtain ⟨bc, dc, jc⟩ := v
    norm_num [fukushimaT_zero]

/-! ### Bartky-loop analysis for `BulirschCel` (claim C2) -/

/-- If the convergence test fails at every one of the first `fuel` iterates,
`celLoop` runs out of fuel, whatever `a`, `b`, `p` are. -/
theorem celLoop_out : ∀ (fuel : ℕ) (a b p : ℝ) (s : ℝ × ℝ × ℝ),
    (∀ k < fuel, ¬celPass (kemStep^[k] s)) →
    celLoop fuel a b p s = .error .outOfFuel := by
  intro fuel
  induction fuel with
  | zero => intro a b p s _; rfl
  | succ f ih =>
    intro a b p s h
    obtain ⟨kc, e, m⟩ := s
    have h0 : ¬|m - kc| ≤ m * 1.0e-7 := by
      simpa [celPass] using h 0 (Nat.succ_pos f)
    simp only [celLoop]
    rw [if_neg h0]
    exact ih _ _ _ _ (fun k hk => by
      simpa [kemStep, Function.iterate_succ_apply] using h (k + 1) (by omega))

/-- If the convergence test passes at some iterate within the fuel, `celLoop`
returns a value. -/
theorem celLoop_ok : ∀ (fuel : ℕ) (a b p : ℝ) (s : ℝ × ℝ × ℝ),
    (∃ k < fuel, celPass (kemStep^[k] s)) →
    ∃ v, celLoop fuel a b p s = .ok v := by
  intro fuel
  induction fuel with
  | zero => intro a b p s h; obtain ⟨k, hk, _⟩ := h; omega
  | succ f ih =>
    intro a b p s h
    obtain ⟨kc, e, m⟩ := s
    by_cases h0 : |m - kc| ≤ m * 1.0e-7
    · simp only [celLoop, if_pos h0]
      exact ⟨_, rfl⟩
    · obtain ⟨k, hk, hpass⟩ := h
      match k, hk with
      | 0, _ => exact absurd (by simpa [celPass] using hpass) h0
      | k + 1, hk =>
        have hst : kemStep (kc, e, m) =
            (Real.sqrt e + Real.sqrt e,
             (Real.sqrt e + Real.sqrt e) * (kc + m), kc + m) := rfl
        obtain ⟨v, hv⟩ := ih (b / p + kc) ((kc * (e / p) + e) + (kc * (e / p) + e))
          (e / p + p) (kemStep (kc, e, m))
          ⟨k, by omega, by simpa [Function.iterate_succ_apply] using hpass⟩
        obtain ⟨w, hw⟩ := ih (b / p + a) ((a * (e / p) + b) + (a * (e / p) + b))
          (e / p + p) (kemStep (kc, e, m))
          ⟨k, by omega, by simpa [Function.iterate_succ_apply] using hpass⟩
        refine ⟨w, ?_⟩
        simp only [celLoop]
        rw [if_neg h0, ← hst]
        exact hw

/-- The invariant is preserved by a Bartky step. -/
theorem kemInv_step (s : ℝ × ℝ × ℝ) (h : kemInv s) : kemInv (kemStep s) := by
  obtain ⟨kc, e, m⟩ := s
  obtain ⟨hkc, hm, hle, he⟩ := h
  replace hkc : 0 < kc := hkc
  replace hm : 0 < m := hm
  replace hle : kc ≤ m := hle
  replace he : e = kc * m := he
  have he0 : 0 < e := by rw [he]; positivity
  have hs : 0 < Real.sqrt e := Real.sqrt_pos.mpr he0
  have hA2 : Real.sqrt kc * Real.sqrt kc = kc := Real.mul_self_sqrt hkc.le
  have hB2 : Real.sqrt m * Real.sqrt m = m := Real.mul_self_sqrt hm.le
  have hse : Real.sqrt e = Real.sqrt kc * Real.sqrt m := by
    rw [he, Real.sqrt_mul hkc.le]
  refine ⟨by show (0:ℝ) < Real.sqrt e + Real.sqrt e; positivity,
    by show (0:ℝ) < kc + m; positivity, ?_, rfl⟩
  show Real.sqrt e + Real.sqrt e ≤ kc + m
  rw [hse]
  nlinarith [sq_nonneg (Real.sqrt kc - Real.sqrt m), hA2, hB2]

/-- The ratio is positive under the invariant. -/
theorem kemRatio_pos (s : ℝ × ℝ × ℝ) (h : kemInv s) : 0 < kemRatio s := by
  obtain ⟨kc, e, m⟩ := s
  obtain ⟨hkc, hm, _, _⟩ := h
  replace hkc : 0 < kc := hkc
  replace hm : 0 < m := hm
  show 0 < kc / m
  positivity

/-- One Bartky step grows the ratio at least to its square root, and keeps it
at most `1`. -/
theorem kemRatio_grow (s : ℝ × ℝ × ℝ) (h : kemInv s) (h1 : kemRatio s ≤ 1) :
    Real.sqrt (kemRatio s) ≤ kemRatio (kemStep s) ∧ kemRatio (kemStep s) ≤ 1 := by
  obtain ⟨kc, e, m⟩ := s
  obtain ⟨hkc, hm, hle, he⟩ := h
  replace hkc : 0 < kc := hkc
  replace hm : 0 < m := hm
  replace hle : kc ≤ m := hle
  replace he : e = kc * m := he
  have hse : Real.sqrt e = Real.sqrt kc * Real.sqrt m := by
    rw [he, Real.sqrt_mul hkc.le]
  have hA : 0 ≤ Real.sqrt kc := Real.sqrt_nonneg kc
  have hB : 0 < Real.sqrt m := Real.sqrt_pos.mpr hm
  have hA2 : Real.sqrt kc * Real.sqrt kc = kc := Real.mul_self_sqrt hkc.le
  have hB2 : Real.sqrt m * Real.sqrt m = m := Real.mul_self_sqrt hm.le
  have hD : 0 < kc + m := by linarith
  have hstep : kemRatio (kemStep (kc, e, m)) =
      (Real.sqrt e + Real.sqrt e) / (kc + m) := rfl
  have hsr : Real.sqrt (kemRatio (kc, e, m)) = Real.sqrt kc / Real.sqrt m := by
    show Real.sqrt (kc / m) = _
    rw [Real.sqrt_div hkc.le]
  constructor
  · rw [hsr, hstep, hse, div_le_div_iff hB hD]
    nlinarith [mul_le_mul_of_nonneg_left hle hA]
  · rw [hstep, hse, div_le_one hD]
    nlinarith [sq_nonneg (Real.sqrt kc - Real.sqrt m), hA2, hB2]

/-- One Bartky step at most doubles the square root of the ratio. -/
theorem kemRatio_shrink (s : ℝ × ℝ × ℝ) (h : kemInv s) :
    kemRatio (kemStep s) ≤ 2 * Real.sqrt (kemRatio s) := by
  obtain ⟨kc, e, m⟩ := s
  obtain ⟨hkc, hm, hle, he⟩ := h
  replace hkc : 0 < kc := hkc
  replace hm : 0 < m := hm
  replace he : e = kc * m := he
  have hse : Real.sqrt e = Real.sqrt kc * Real.sqrt m := by
    rw [he, Real.sqrt_mul hkc.le]
  have hA : 0 ≤ Real.sqrt kc := Real.sqrt_nonneg kc
  have hB : 0 < Real.sqrt m := Real.sqrt_pos.mpr hm
  have hB2 : Real.sqrt m * Real.sqrt m = m := Real.mul_self_sqrt hm.le
  have hD : 0 < kc + m := by linarith
  have hstep : kemRatio (kemStep (kc, e, m)) =
      (Real.sqrt e + Real.sqrt e) / (kc + m) := rfl
  have hsr : Real.sqrt (kemRatio (kc, e, m)) = Real.sqrt kc / Real.sqrt m := by
    show Real.sqrt (kc / m) = _
    rw [Real.sqrt_div hkc.le]
  rw [hstep, hse, hsr, ← mul_div_assoc, div_le_div_iff hD hB]
  nlinarith [mul_nonneg hA hkc.le]

/-- One Bartky step contracts the distance of the ratio from `1`
quadratically. -/
theorem kemRatio_contract (s : ℝ × ℝ × ℝ) (h : kemInv s) :
    1 - kemRatio (kemStep s) ≤ (1 - kemRatio s) ^ 2 := by
  obtain ⟨kc, e, m⟩ := s
  obtain ⟨hkc, hm, hle, he⟩ := h
  replace hkc : 0 < kc := hkc
  replace hm : 0 < m := hm
  replace hle : kc ≤ m := hle
  replace he : e = kc * m := he
  have hse : Real.sqrt e = Real.sqrt kc * Real.sqrt m := by
    rw [he, Real.sqrt_mul hkc.le]
  have hA : 0 ≤ Real.sqrt kc := Real.sqrt_nonneg kc
  have hB : 0 < Real.sqrt m := Real.sqrt_pos.mpr hm
  have hA2 : Real.sqrt kc * Real.sqrt kc = kc := Real.mul_self_sqrt hkc.le
  have hB2 : Real.sqrt m * Real.sqrt m = m := Real.mul_self_sqrt hm.le
  have hD : 0 < kc + m := by linarith
  have hstep : kemRatio (kemStep (kc, e, m)) =
      (Real.sqrt e + Real.sqrt e) / (kc + m) := rfl
  have hratio : kemRatio (kc, e, m) = kc / m := rfl
  rw [hstep, hse, hratio]
  rw [one_sub_div (ne_of_gt hD), one_sub_div (ne_of_gt hm), div_pow,
    div_le_div_iff hD (by positivity)]
  have hfac : m - kc = (Real.sqrt m - Real.sqrt kc) * (Real.sqrt m + Real.sqrt kc) := by
    nlinarith [hA2, hB2]
  have hsub : kc + m - (Real.sqrt kc * Real.sqrt m + Real.sqrt kc * Real.sqrt m)
      = (Real.sqrt m - Real.sqrt kc) ^ 2 := by
    nlinarith [hA2, hB2]
  have hk1 : m ^ 2 ≤ (Real.sqrt m + Real.sqrt kc) ^ 2 * (kc + m) := by
    nlinarith [mul_nonneg hA hB.le, hA2, hB2, hkc.le, sq_nonneg (Real.sqrt m + Real.sqrt kc)]
  calc (kc + m - (Real.sqrt kc * Real.sqrt m + Real.sqrt kc * Real.sqrt m)) * m ^ 2
      = (Real.sqrt m - Real.sqrt kc) ^ 2 * m ^ 2 := by rw [hsub]
    _ ≤ (Real.sqrt m - Real.sqrt kc) ^ 2 * ((Real.sqrt m + Real.sqrt kc) ^ 2 * (kc + m)) :=
        mul_le_mul_of_nonneg_left hk1 (sq_nonneg _)
    _ = (m - kc) ^ 2 * (kc + m) := by rw [hfac]; ring

/-- The convergence test in terms of the ratio. -/
theorem celPass_iff (s : ℝ × ℝ × ℝ) (h : kemInv s) :
    celPass s ↔ 1 - kemRatio s ≤ 1.0e-7 := by
  obtain ⟨kc, e, m⟩ := s
  obtain ⟨hkc, hm, hle, _⟩ := h
  replace hkc : 0 < kc := hkc
  replace hm : 0 < m := hm
  replace hle : kc ≤ m := hle
  show |m - kc| ≤ m * 1.0e-7 ↔ 1 - kc / m ≤ 1.0e-7
  rw [abs_of_nonneg (by linarith)]
  constructor
  · intro hx
    have hdiv : (1 : ℝ) - 1.0e-7 ≤ kc / m := by
      rw [le_div_iff hm]; nlinarith
    linarith
  · intro hx
    have hdiv : (1 : ℝ) - 1.0e-7 ≤ kc / m := by linarith
    rw [le_div_iff hm] at hdiv
    nlinarith

/-- Square root of an even power of two. -/
theorem sqrt_two_zpow (f : ℤ) : Real.sqrt ((2:ℝ) ^ (2 * f)) = (2:ℝ) ^ f := by
  have h : ((2:ℝ) ^ f) ^ (2:ℕ) = (2:ℝ) ^ (2 * f) := by
    rw [← zpow_natCast ((2:ℝ) ^ f) 2, ← zpow_mul]
    norm_num [mul_comm]
  rw [← h, Real.sqrt_sq (by positivity)]

/-- Growth phase: if the ratio is at least `2^(-2^c)`, then after `c` Bartky
steps it is at least `1/2`. -/
theorem kem_phase1 : ∀ (c : ℕ) (s : ℝ × ℝ × ℝ), kemInv s → kemRatio s ≤ 1 →
    (2:ℝ) ^ (-(2 ^ c : ℤ)) ≤ kemRatio s →
    kemInv (kemStep^[c] s) ∧ kemRatio (kemStep^[c] s) ≤ 1 ∧
      (2:ℝ) ^ (-1 : ℤ) ≤ kemRatio (kemStep^[c] s) := by
  intro c
  induction c with
  | zero =>
    intro s hI h1 hlo
    simp only [Function.iterate_zero, id_eq]
    refine ⟨hI, h1, ?_⟩
    simpa using hlo
  | succ c ih =>
    intro s hI h1 hlo
    have hgrow := kemRatio_grow s hI h1
    have hsq : (2:ℝ) ^ (-(2 ^ c : ℤ)) ≤ Real.sqrt (kemRatio s) := by
      have hexp : (2 * (-(2 ^ c : ℤ))) = -(2 ^ (c + 1) : ℤ) := by
        rw [pow_succ]; ring
      calc (2:ℝ) ^ (-(2 ^ c : ℤ))
          = Real.sqrt ((2:ℝ) ^ (2 * (-(2 ^ c : ℤ)))) := (sqrt_two_zpow _).symm
        _ = Real.sqrt ((2:ℝ) ^ (-(2 ^ (c + 1) : ℤ))) := by rw [hexp]
        _ ≤ Real.sqrt (kemRatio s) := Real.sqrt_le_sqrt hlo
    rw [Function.iterate_succ_apply]
    exact ih (kemStep s) (kemInv_step s hI) hgrow.2 (le_trans hsq hgrow.1)

/-- Contraction phase: once the ratio is within `1/2` of `1`, the distance
from `1` squares at each Bartky step. -/
theorem kem_phase2 : ∀ (j : ℕ) (s : ℝ × ℝ × ℝ), kemInv s → kemRatio s ≤ 1 →
    1 - kemRatio s ≤ 1 / 2 →
    kemInv (kemStep^[j] s) ∧ kemRatio (kemStep^[j] s) ≤ 1 ∧
      1 - kemRatio (kemStep^[j] s) ≤ ((1:ℝ) / 2) ^ (2 ^ j) := by
  intro j
  induction j with
  | zero =>
    intro s hI h1 hco
    simp only [Function.iterate_zero, id_eq]
    exact ⟨hI, h1, le_trans hco (by norm_num)⟩
  | succ j ih =>
    intro s hI h1 hco
    obtain ⟨hIj, h1j, hcoj⟩ := ih s hI h1 hco
    rw [Function.iterate_succ_apply']
    refine ⟨kemInv_step _ hIj, (kemRatio_grow _ hIj h1j).2, ?_⟩
    have hc := kemRatio_contract _ hIj
    have hnn : 0 ≤ 1 - kemRatio (kemStep^[j] s) := by linarith
    have hp : (1 - kemRatio (kemStep^[j] s)) ^ 2 ≤ (((1:ℝ) / 2) ^ (2 ^ j)) ^ 2 :=
      pow_le_pow_left₀ hnn hcoj 2
    have hexp : (((1:ℝ) / 2) ^ (2 ^ j)) ^ 2 = ((1:ℝ) / 2) ^ (2 ^ (j + 1)) := by
      rw [← pow_mul, pow_succ]
    linarith

/-- For `2^-1074 ≤ kc ≤ 1` the convergence test of the Bartky loop started at
`(kc, kc, 1)` passes at iterate 16. -/
theorem kem_pass16 (kc : ℝ) (h0 : (2:ℝ) ^ (-1074 : ℤ) ≤ kc) (h1 : kc ≤ 1) :
    celPass (kemStep^[16] (kc, kc, 1.0)) := by
  have hkc : 0 < kc := lt_of_lt_of_le (by positivity) h0
  have hone : (1.0 : ℝ) = 1 := by norm_num
  have hInv : kemInv (kc, kc, 1.0) := by
    refine ⟨hkc, by norm_num, ?_, ?_⟩
    · show kc ≤ 1.0
      rw [hone]; exact h1
    · show kc = kc * 1.0
      rw [hone, mul_one]
  have hr : kemRatio (kc, kc, 1.0) = kc := by
    show kc / 1.0 = kc
    rw [hone, div_one]
  have hr1 : kemRatio (kc, kc, 1.0) ≤ 1 := by rw [hr]; exact h1
  have hlo : (2:ℝ) ^ (-(2 ^ 11 : ℤ)) ≤ kemRatio (kc, kc, 1.0) := by
    rw [hr]
    refine le_trans ?_ h0
    apply zpow_le_zpow_right₀ <;> norm_num
  obtain ⟨hI11, hr11, hge11⟩ := kem_phase1 11 (kc, kc, 1.0) hInv hr1 hlo
  have hhalf : 1 - kemRatio (kemStep^[11] (kc, kc, 1.0)) ≤ 1 / 2 := by
    have h2 : (2:ℝ) ^ (-1 : ℤ) = 1 / 2 := by norm_num
    rw [h2] at hge11
    linarith
  obtain ⟨hI16, hr16, hco⟩ := kem_phase2 5 (kemStep^[11] (kc, kc, 1.0)) hI11 hr11 hhalf
  have hI16' : kemInv (kemStep^[16] (kc, kc, 1.0)) := by
    rw [show (16:ℕ) = 5 + 11 from rfl, Function.iterate_add_apply]
    exact hI16
  have hco' : 1 - kemRatio (kemStep^[16] (kc, kc, 1.0)) ≤ ((1:ℝ) / 2) ^ (2 ^ 5) := by
    rw [show (16:ℕ) = 5 + 11 from rfl, Function.iterate_add_apply]
    exact hco
  refine (celPass_iff _ hI16').mpr ?_
  have hsmall : ((1:ℝ) / 2) ^ (2 ^ 5 : ℕ) ≤ 1.0e-7 := by norm_num
  linarith

/-- Shrink phase for the counterexample: a Bartky step at most doubles the
square root of the ratio, so a doubly-exponentially small ratio stays tiny. -/
theorem kem_shrink_step (k : ℕ) (s : ℝ × ℝ × ℝ) (hI : kemInv s)
    (hr : kemRatio s ≤ (2:ℝ) ^ (-(3 * 2 ^ (k + 1) - 2) : ℤ)) :
    kemRatio (kemStep s) ≤ (2:ℝ) ^ (-(3 * 2 ^ k - 2) : ℤ) := by
  have h1 : kemRatio (kemStep s) ≤ 2 * Real.sqrt (kemRatio s) := kemRatio_shrink s hI
  have h2 : Real.sqrt (kemRatio s) ≤ Real.sqrt ((2:ℝ) ^ (-(3 * 2 ^ (k + 1) - 2) : ℤ)) :=
    Real.sqrt_le_sqrt hr
  have hexp : (-(3 * 2 ^ (k + 1) - 2) : ℤ) = 2 * (-(3 * 2 ^ k - 1)) := by
    rw [pow_succ]; ring
  rw [hexp, sqrt_two_zpow] at h2
  have h3 : 2 * (2:ℝ) ^ (-(3 * 2 ^ k - 1) : ℤ) = (2:ℝ) ^ (-(3 * 2 ^ k - 2) : ℤ) := by
    rw [show (-(3 * 2 ^ k - 2) : ℤ) = 1 + -(3 * 2 ^ k - 1) by ring,
      zpow_add₀ (by norm_num : (2:ℝ) ≠ 0)]
    norm_num
  calc kemRatio (kemStep s) ≤ 2 * Real.sqrt (kemRatio s) := h1
    _ ≤ 2 * (2:ℝ) ^ (-(3 * 2 ^ k - 1) : ℤ) := by linarith
    _ = (2:ℝ) ^ (-(3 * 2 ^ k - 2) : ℤ) := h3

/-- Iterated shrink phase. -/
theorem kem_shrink_iter : ∀ (n c : ℕ) (s : ℝ × ℝ × ℝ), kemInv s →
    kemRatio s ≤ (2:ℝ) ^ (-(3 * 2 ^ (c + n) - 2) : ℤ) →
    kemInv (kemStep^[n] s) ∧
      kemRatio (kemStep^[n] s) ≤ (2:ℝ) ^ (-(3 * 2 ^ c - 2) : ℤ) := by
  intro n
  induction n with
  | zero =>
    intro c s hI hr
    simp only [Function.iterate_zero, id_eq]
    exact ⟨hI, by rwa [Nat.add_zero] at hr⟩
  | succ n ih =>
    intro c s hI hr
    have hr' : kemRatio s ≤ (2:ℝ) ^ (-(3 * 2 ^ ((c + n) + 1) - 2) : ℤ) := by
      rw [show (c + n) + 1 = c + (n + 1) by omega]
      exact hr
    have hstep := kem_shrink_step (c + n) s hI hr'
    rw [Function.iterate_succ_apply]
    exact ih c (kemStep s) (kemInv_step s hI) hstep

/-- Parametric form of the 100-iterate failure: any start `(kc, kc, 1)` with
`0 < kc ≤ 2^-(3·2^(101-k+k) - 2)` still fails the convergence test after `k`
Bartky steps, for `k < 100`. -/
theorem kem_fail_aux (k : ℕ) (hk : k < 100) (kc : ℝ) (hkc : 0 < kc)
    (hsm : kc ≤ (2:ℝ) ^ (-(3 * 2 ^ (101 - k + k) - 2) : ℤ)) :
    ¬celPass (kemStep^[k] (kc, kc, 1.0)) := by
  have hone : (1.0 : ℝ) = 1 := by norm_num
  have hle1 : (2:ℝ) ^ (-(3 * 2 ^ (101 - k + k) - 2) : ℤ) ≤ 1 := by
    apply zpow_le_one_of_nonpos₀
    · norm_num
    · have h2m : (2:ℤ) ^ 0 ≤ 2 ^ (101 - k + k) :=
        pow_le_pow_right₀ (by norm_num) (Nat.zero_le _)
      rw [pow_zero] at h2m
      linarith
  have hkc1 : kc ≤ 1 := le_trans hsm hle1
  have hInv : kemInv (kc, kc, 1.0) := by
    refine ⟨hkc, by show (0:ℝ) < 1.0; norm_num, ?_, ?_⟩
    · show kc ≤ 1.0
      rw [hone]; exact hkc1
    · show kc = kc * 1.0
      rw [hone, mul_one]
  have hr : kemRatio (kc, kc, 1.0) = kc := by
    show kc / 1.0 = kc
    rw [hone, div_one]
  have hstart : kemRatio (kc, kc, 1.0) ≤
      (2:ℝ) ^ (-(3 * 2 ^ (101 - k + k) - 2) : ℤ) := by
    rw [hr]; exact hsm
  obtain ⟨hIk, hrk⟩ := kem_shrink_iter k (101 - k) _ hInv hstart
  have hp4 : (4:ℤ) ≤ 2 ^ (101 - k) := by
    calc (4:ℤ) = 2 ^ 2 := by norm_num
      _ ≤ 2 ^ (101 - k) := pow_le_pow_right₀ (by norm_num) (by omega)
  have hexp : (-(3 * 2 ^ (101 - k) - 2) : ℤ) ≤ -10 := by linarith
  have hfin : kemRatio (kemStep^[k] (kc, kc, 1.0)) ≤ (2:ℝ) ^ (-10 : ℤ) :=
    le_trans hrk (zpow_le_zpow_right₀ (by norm_num) hexp)
  intro hcp
  have hclose := (celPass_iff _ hIk).mp hcp
  have h1024 : (2:ℝ) ^ (-10 : ℤ) = 1 / 1024 := by norm_num
  rw [h1024] at hfin
  linarith

/-- For the doubly-exponentially small `kc = 2^-(3·2^101 - 2)` the convergence
test still fails at every one of the first 100 Bartky iterates. -/
theorem kem_fail100 (k : ℕ) (hk : k < 100) :
    ¬celPass (kemStep^[k]
      ((2:ℝ) ^ (-(3 * 2 ^ 101 - 2) : ℤ), (2:ℝ) ^ (-(3 * 2 ^ 101 - 2) : ℤ), 1.0)) := by
  refine kem_fail_aux k hk _ (zpow_pos (by norm_num) _) ?_
  rw [show 101 - k + k = 101 by omega]

/-- C2, counterexample: the source's Bartky loop is `for (;;)` with no
iteration budget, and on the in-domain input `kc = 2^-(3·2^101 - 2) ∈ (0, 1]`,
`nc = a = b = 1`, the loop exceeds 100 iterations (here modelled as fuel
exhaustion), so no fixed 100-iteration budget bounds the loop on the claimed
domain `0 < kc ≤ 1`. -/
theorem bulirschCel_budget_cex :
    (0:ℝ) < (2:ℝ) ^ (-(3 * 2 ^ 101 - 2) : ℤ) ∧
    (2:ℝ) ^ (-(3 * 2 ^ 101 - 2) : ℤ) ≤ 1 ∧
    BulirschCel ((2:ℝ) ^ (-(3 * 2 ^ 101 - 2) : ℤ)) 1 1 1 = .error .outOfFuel := by
  have hkc : (0:ℝ) < (2:ℝ) ^ (-(3 * 2 ^ 101 - 2) : ℤ) := zpow_pos (by norm_num) _
  have hle1 : (2:ℝ) ^ (-(3 * 2 ^ 101 - 2) : ℤ) ≤ 1 := by
    apply zpow_le_one_of_nonpos₀ <;> norm_num
  refine ⟨hkc, hle1, ?_⟩
  simp only [BulirschCel]
  rw [if_neg (ne_of_gt hkc)]
  simp only [celBody]
  rw [if_pos (by norm_num : (1:ℝ) > 0), abs_of_pos hkc]
  exact celLoop_out 100 _ _ _ _ kem_fail100

/-- C2, amended: for `2^-1074 ≤ kc ≤ 1` (all positive double-precision
magnitudes of `kc`) and any `nc`, `a`, `b` in the claimed domain, the Bartky
loop passes its convergence test within 16 iterations, so with a
100-iteration budget `BulirschCel` returns a value. -/
theorem bulirschCel_total (kc nc a b : ℝ) (h0 : (2:ℝ) ^ (-1074 : ℤ) ≤ kc)
    (h1 : kc ≤ 1) (hnc0 : 0 ≤ nc) (hnc1 : nc ≤ 1) :
    ∃ v, BulirschCel kc nc a b = .ok v := by
  have hkc : 0 < kc := lt_of_lt_of_le (by positivity) h0
  have hex : ∃ k < 100, celPass (kemStep^[k] (kc, kc, 1.0)) :=
    ⟨16, by norm_num, kem_pass16 kc h0 h1⟩
  simp only [BulirschCel]
  rw [if_neg (ne_of_gt hkc)]
  simp only [celBody]
  rw [abs_of_pos hkc]
  by_cases hnc : nc > 0
  · rw [if_pos hnc]
    exact celLoop_ok 100 _ _ _ _ hex
  · rw [if_neg hnc]
    exact celLoop_ok 100 _ _ _ _ hex

/-- Witness for `bulirschCel_total` at `kc = nc = a = b = 1`. -/
theorem bulirschCel_total_witness :
    ((2:ℝ) ^ (-1074 : ℤ) ≤ 1 ∧ (1:ℝ) ≤ 1 ∧ (0:ℝ) ≤ 1) ∧
    ∃ v, BulirschCel 1 1 1 1 = .ok v :=
  ⟨⟨by apply zpow_le_one_of_nonpos₀ <;> norm_num, le_refl 1, by norm_num⟩,
   bulirschCel_total 1 1 1 1
     (by apply zpow_le_one_of_nonpos₀ <;> norm_num) (le_refl 1)
     (by norm_num) (le_refl 1)⟩

/-- Witness for `bdj_quarter_period` at `n = 1/2`, `mc = 1/2`. -/
theorem bdj_quarter_period_witness :
    ((0:ℝ) ≤ 1 / 2 ∧ (1:ℝ) / 2 ≤ 1 ∧ (0:ℝ) < 1 / 2) ∧
    FukushimaEllipticBDJAngle (Real.pi / 2) (1 / 2) (1 / 2) =
      FukushimaEllipticBDJ (1.0 - 1 / 2) (1 / 2) :=
  ⟨⟨by norm_num, by norm_num, by norm_num⟩,
   bdj_quarter_period (1 / 2) (1 / 2) (by norm_num) (by norm_num)
     (by norm_num) (by norm_num)⟩

end Principia
